import Mathlib

/-!
# Verification of the Oasis_Go_BE core services

Shallow embedding of the pod state machine (`src/models/Pod.js`), the booking
overlap logic (`src/services/bookingService.js`), the incident reporting flow
(`src/utils/incidentService.js`), the order-id generator
(`src/utils/orderIdGenerator.js`), the VNPay signature/canonicalisation layer
(`utils/vnpayService.js`), the IPN reconciliation handler
(`controllers/vnpayController.js`), and the pod batch creation paths
(`services/podService.js` and the legacy pod controller).

JavaScript strings, numbers and Mongoose documents are modelled as `String`,
`JSNumber` (exact unreduced fractions)/`Int`/`Nat` and Lean structures.  Query-parameter objects are modelled as
association lists `List (String × String)`.  Persistence is modelled by
threading the list of stored records through each operation; a thrown error is
an `Except.error` carrying the thrown message, and the stored records are
returned unchanged in that case (the embedded services never write before they
throw).  The HMAC primitive from node's `crypto` module is an external
library; it enters the model as an explicit function parameter
`hmac : String → String` (the shared secret already applied); the verified
properties depend only on its determinism.
-/

namespace OasisGo

/-- Pod status vocabulary.  `src/models/Pod.js` enumerates the first five
values; the second pod model (`models/Pods.js`, used by the incident service)
additionally allows `OUT_OF_SERVICE`.  We use the union. -/
inductive PodStatus where
  | AVAILABLE
  | OCCUPIED
  | NEEDS_CLEANING
  | CLEANING
  | MAINTENANCE
  | OUT_OF_SERVICE
  deriving DecidableEq, Repr

/-- Display name of a pod status, as it appears in JS error messages. -/
def PodStatus.name : PodStatus → String
  | .AVAILABLE => "AVAILABLE"
  | .OCCUPIED => "OCCUPIED"
  | .NEEDS_CLEANING => "NEEDS_CLEANING"
  | .CLEANING => "CLEANING"
  | .MAINTENANCE => "MAINTENANCE"
  | .OUT_OF_SERVICE => "OUT_OF_SERVICE"

/-- The fields of a pod record that the verified operations read or write
(`src/models/Pod.js`). -/
structure Pod where
  id : String
  cluster_id : String
  code : String
  name : String
  status : PodStatus
  deriving DecidableEq, Repr

/-- `podSchema.methods.markAsOccupied` (`src/models/Pod.js`):
throws unless the current status is `AVAILABLE`, otherwise sets `OCCUPIED`. -/
def markAsOccupied (p : Pod) : Except String Pod :=
  if p.status ≠ .AVAILABLE then
    .error ("Cannot occupy pod with status " ++ p.status.name)
  else
    .ok { p with status := .OCCUPIED }

/-- `podSchema.methods.markAsAvailable` (`src/models/Pod.js`):
throws if the pod is dirty (`NEEDS_CLEANING` or `CLEANING`), otherwise sets
`AVAILABLE`. -/
def markAsAvailable (p : Pod) : Except String Pod :=
  if p.status = .NEEDS_CLEANING ∨ p.status = .CLEANING then
    .error "Pod must be cleaned before becoming available"
  else
    .ok { p with status := .AVAILABLE }

/-- The error message `markAsOccupied` throws (template literal in the JS). -/
def cannotOccupyMsg (p : Pod) : String :=
  "Cannot occupy pod with status " ++ p.status.name

/-! ## Booking coordinator (`src/services/bookingService.js`) -/

/-- Booking status vocabulary (`models/Bookings.js`). -/
inductive BookingStatus where
  | BOOKED
  | IN_USE
  | COMPLETED
  | CANCELLED
  deriving DecidableEq, Repr

/-- The booking fields `createBooking` reads and writes. -/
structure Booking where
  user : String
  pod : String
  startTime : Int
  endTime : Int
  status : BookingStatus
  deriving DecidableEq, Repr

/-- `isTimeOverlap` (`src/services/bookingService.js`):
open-interval overlap test `startA < endB && startB < endA`. -/
def isTimeOverlap (startA endA startB endB : Int) : Bool :=
  startA < endB && startB < endA

/-- Models `mongoose.Types.ObjectId.isValid` for its string argument case:
a 24-character hexadecimal string.  (The mongoose helper is an external
library; only this case occurs for the ids the services receive.) -/
def isValidObjectId (s : String) : Bool :=
  s.length == 24 && s.data.all (fun c =>
    c.isDigit || (97 ≤ c.toNat && c.toNat ≤ 102) || (65 ≤ c.toNat && c.toNat ≤ 70))

/-- Is this booking counted by the overlap check
(`status: { $in: ["BOOKED", "IN_USE"] }`)? -/
def isActiveBooking (b : Booking) : Bool :=
  b.status == .BOOKED || b.status == .IN_USE

/-- `createBooking` (`src/services/bookingService.js`): validates the ids,
loads the pod, requires it `AVAILABLE`, scans the pod's `BOOKED`/`IN_USE`
bookings for an overlap, then creates the booking `BOOKED` and flips the pod
to `OCCUPIED`.  The stored pods and bookings are threaded explicitly; on
success the updated pod list, the extended booking list and the created
booking are returned. -/
def createBooking (pods : List Pod) (bookings : List Booking)
    (userId podId : String) (startTime endTime : Int) :
    Except String (List Pod × List Booking × Booking) :=
  if ¬(isValidObjectId userId && isValidObjectId podId) then
    .error "Invalid input"
  else
    match pods.find? (fun p => p.id == podId) with
    | none => .error "Pod not found"
    | some pod =>
      if pod.status ≠ .AVAILABLE then
        .error "Pod is not available"
      else
        let existingBookings := bookings.filter (fun b => b.pod == podId && isActiveBooking b)
        if existingBookings.any (fun b => isTimeOverlap startTime endTime b.startTime b.endTime) then
          .error "Time slot is not available"
        else
          let booking : Booking :=
            { user := userId, pod := podId, startTime := startTime,
              endTime := endTime, status := .BOOKED }
          let pods' := pods.map (fun p =>
            if p.id == podId then { p with status := .OCCUPIED } else p)
          .ok (pods', bookings ++ [booking], booking)

/-- The per-pod non-overlap invariant of the booking store: any two
`BOOKED`/`IN_USE` bookings of the same pod have disjoint `[start, end)`
intervals. -/
def activeNoOverlap (bookings : List Booking) : Prop :=
  bookings.Pairwise (fun a b =>
    a.pod = b.pod → isActiveBooking a = true → isActiveBooking b = true →
    isTimeOverlap a.startTime a.endTime b.startTime b.endTime = false)

/-! ## Incident handling (`src/utils/incidentService.js`) -/

/-- Incident severity vocabulary (`models/Incidents.js`). -/
inductive IncidentSeverity where
  | LOW
  | MEDIUM
  | HIGH
  | CRITICAL
  deriving DecidableEq, Repr

/-- Incident status vocabulary (`models/Incidents.js`). -/
inductive IncidentStatus where
  | PENDING
  | INVESTIGATING
  | RESOLVED
  | CLOSED
  deriving DecidableEq, Repr

/-- The incident fields `createIncident` writes. -/
structure Incident where
  pod : String
  reportedBy : String
  description : String
  severity : IncidentSeverity
  status : IncidentStatus
  deriving DecidableEq, Repr

/-- `createIncident` (`src/utils/incidentService.js`): validates the ids,
loads the pod, creates the incident with status `PENDING`, and — only when
`severity === "HIGH"` — sets the pod `OUT_OF_SERVICE` and saves it.  Returns
the updated pod list, the extended incident list and the created incident. -/
def createIncident (pods : List Pod) (incidents : List Incident)
    (podId reportedBy description : String) (severity : IncidentSeverity) :
    Except String (List Pod × List Incident × Incident) :=
  if ¬(isValidObjectId podId && isValidObjectId reportedBy) then
    .error "Invalid input"
  else
    match pods.find? (fun p => p.id == podId) with
    | none => .error "Pod not found"
    | some _ =>
      let incident : Incident :=
        { pod := podId, reportedBy := reportedBy, description := description,
          severity := severity, status := .PENDING }
      let pods' :=
        if severity = .HIGH then
          pods.map (fun p => if p.id == podId then { p with status := .OUT_OF_SERVICE } else p)
        else
          pods
      .ok (pods', incidents ++ [incident], incident)

/-! ## String primitives

The JavaScript runtime operations the payment stack relies on are modelled
explicitly: code-unit lexicographic string comparison (`Array.prototype.sort`
default comparator and MongoDB string ordering), `encodeURIComponent`,
`String.prototype.replace(/%20/g, "+")`, `Number.prototype.toString`,
`String.prototype.padStart`, `String.prototype.split` and `parseInt`. -/

/-- Code-unit lexicographic comparison of character lists (JS `<=` on
strings; all strings compared here are ASCII, where UTF-16 code-unit order
and code-point order agree). -/
def charListLe : List Char → List Char → Bool
  | [], _ => true
  | _ :: _, [] => false
  | x :: xs, y :: ys =>
    if x.toNat = y.toNat then charListLe xs ys else decide (x.toNat < y.toNat)

/-- JS string comparison `a <= b`. -/
def strLeB (a b : String) : Bool :=
  charListLe a.data b.data

/-- `Array.prototype.sort()` with the default (string code-unit) comparator,
modelled as an insertion sort by `strLeB`. -/
def jsSortAsc (l : List String) : List String :=
  l.insertionSort (fun a b => strLeB a b = true)

/-- MongoDB `sort({field: -1})` on strings: descending code-unit order. -/
def jsSortDesc (l : List String) : List String :=
  (jsSortAsc l).reverse

/-- Upper-case hexadecimal digit (as emitted by `encodeURIComponent`). -/
def hexDigit (n : Nat) : Char :=
  if n < 10 then Char.ofNat (48 + n) else Char.ofNat (55 + n)

/-- UTF-8 bytes of a character (for percent-encoding). -/
def utf8Bytes (c : Char) : List Nat :=
  let n := c.toNat
  if n < 128 then [n]
  else if n < 2048 then [192 + n / 64, 128 + n % 64]
  else if n < 65536 then [224 + n / 4096, 128 + (n / 64) % 64, 128 + n % 64]
  else [240 + n / 262144, 128 + (n / 4096) % 64, 128 + (n / 64) % 64, 128 + n % 64]

/-- The characters `encodeURIComponent` leaves unescaped:
`A-Z a-z 0-9 - _ . ! ~ * ' ( )`. -/
def isUnreservedChar (c : Char) : Bool :=
  c.isAlpha || c.isDigit || c = '-' || c = '_' || c = '.' || c = '!' ||
    c = '~' || c = '*' || c = Char.ofNat 39 || c = '(' || c = ')'

/-- `%XX` escape of one byte. -/
def percentByte (n : Nat) : String :=
  String.mk ['%', hexDigit (n / 16), hexDigit (n % 16)]

/-- JS `encodeURIComponent`. -/
def encodeURIComponent (s : String) : String :=
  s.data.foldl (fun acc c =>
    if isUnreservedChar c then acc.push c
    else acc ++ String.join ((utf8Bytes c).map percentByte)) ""

/-- Decimal rendering of a natural number (JS `Number.prototype.toString`
for the non-negative integers arising here), written with explicit fuel so
that it is structurally recursive; `fuel = n + 1` always suffices because the
argument shrinks by a factor of ten each step. -/
def natToStringGo : Nat → Nat → String → String
  | 0, _, acc => acc
  | fuel + 1, n, acc =>
    let acc' := String.singleton (Char.ofNat (48 + n % 10)) ++ acc
    if n < 10 then acc' else natToStringGo fuel (n / 10) acc'

/-- Decimal rendering of a natural number. -/
def natToString (n : Nat) : String :=
  natToStringGo (n + 1) n ""

/-- JS `String.prototype.padStart(len, c)`. -/
def padStart (len : Nat) (c : Char) (s : String) : String :=
  String.mk (List.replicate (len - s.length) c) ++ s

/-- JS `String.prototype.split(sep)` for a one-character separator, on
character lists. -/
def splitCharList (c : Char) : List Char → List (List Char)
  | [] => [[]]
  | x :: xs =>
    match splitCharList c xs with
    | [] => [[]]
    | h :: t => if x = c then [] :: h :: t else (x :: h) :: t

/-- JS `String.prototype.split(sep)` for a one-character separator. -/
def jsSplit (c : Char) (s : String) : List String :=
  (splitCharList c s.data).map String.mk

/-- Accumulate a digit list into a natural number. -/
def digitsToNat (l : List Char) : Nat :=
  l.foldl (fun n c => 10 * n + (c.toNat - 48)) 0

/-- JS `.replace(/%20/g, "+")` on character lists: every (non-overlapping,
left-to-right) occurrence of `%20` becomes `+`. -/
def replacePct20 : List Char → List Char
  | '%' :: '2' :: '0' :: rest => '+' :: replacePct20 rest
  | c :: rest => c :: replacePct20 rest
  | [] => []

/-- JS `s.replace(/%20/g, "+")`. -/
def jsReplacePct20 (s : String) : String :=
  String.mk (replacePct20 s.data)

/-- JS `parseInt(s, 10)` (applied to a possibly-undefined value): `undefined`
gives `NaN` (`none`); otherwise the maximal leading run of digits is parsed,
and no leading digit gives `NaN`. -/
def parseIntJs : Option String → Option Nat
  | none => none
  | some s =>
    let digits := s.data.takeWhile Char.isDigit
    if digits = [] then none else some (digitsToNat digits)

/-- A JS number value, modelled as an exact rational in unreduced
`num / den` form (every number handled by the payment stack — VND amounts
and their `/ 100` descaling — is exactly representable, so float rounding
never shows; the unreduced form keeps every operation kernel-computable). -/
structure JSNumber where
  num : Int
  den : Nat
  deriving DecidableEq, Repr

instance (n : Nat) : OfNat JSNumber n := ⟨⟨(n : Int), 1⟩⟩

/-- Numeric equality (JS `===` on numbers), by cross-multiplication. -/
def JSNumber.eqNum (a b : JSNumber) : Bool :=
  a.num * (b.den : Int) == b.num * (a.den : Int)

/-- Exact division of a JS number by a (positive) integer constant. -/
def JSNumber.divByNat (a : JSNumber) (k : Nat) : JSNumber :=
  ⟨a.num, a.den * k⟩

/-- JS implicit string-to-number coercion (as triggered by
`vnpParams["vnp_Amount"] / 100`): the empty string is `0`, a digit string
with an optional single decimal point is exact, anything else is `NaN`
(`none`).  (Signs and exponents never occur in gateway amounts.) -/
def parseJsNumber (s : String) : Option JSNumber :=
  if s.data = [] then some 0
  else
    match splitCharList '.' s.data with
    | [intPart] =>
      if intPart.all Char.isDigit then some ⟨(digitsToNat intPart : Int), 1⟩ else none
    | [intPart, fracPart] =>
      if intPart.all Char.isDigit && fracPart.all Char.isDigit &&
          !(intPart = [] && fracPart = []) then
        some ⟨(digitsToNat intPart * 10 ^ fracPart.length + digitsToNat fracPart : Int),
          10 ^ fracPart.length⟩
      else none
    | _ => none

/-- JS `String.prototype.startsWith` (also modelling the anchored
`^prefix` regular-expression filter of the order-id query; the prefix
`ORDER-YYYYMMDD-` contains no regex metacharacters). -/
def startsWithB (s pre : String) : Bool :=
  pre.data.isPrefixOf s.data

/-! ## VNPay signature layer (`src/utils/vnpayService.js`) -/

/-- `sortObject` (`src/utils/vnpayService.js`): collect the
`encodeURIComponent`-encoded keys, sort them, and rebuild the object in
sorted key order with `encodeURIComponent`-encoded values in which `%20` is
replaced by `+`.  A JS object is a key-unique association list; indexing a
missing key yields `undefined`, which `encodeURIComponent` coerces to the
string `"undefined"` (this happens exactly when a key is not fixed by
encoding, and is reproduced faithfully). -/
def sortObject (obj : List (String × String)) : List (String × String) :=
  let str := jsSortAsc (obj.map (fun kv => encodeURIComponent kv.fst))
  str.map (fun k =>
    (k, jsReplacePct20 (encodeURIComponent ((obj.lookup k).getD "undefined"))))

/-- `querystring.stringify(obj, { encode: false })`: `&`-joined `key=value`
pairs in object order. -/
def stringifyNoEncode (l : List (String × String)) : String :=
  String.intercalate "&" (l.map (fun kv => kv.fst ++ "=" ++ kv.snd))

/-- The canonical string both `createPaymentUrl` and `verifyIpnCall` sign:
`stringify(sortObject(params), { encode: false })`. -/
def signData (params : List (String × String)) : String :=
  stringifyNoEncode (sortObject params)

/-- The static gateway configuration (`src/config/vnpay.js`); the values come
from the environment and are opaque strings here. -/
structure VnpayConfig where
  vnp_TmnCode : String
  vnp_Url : String
  vnp_ReturnUrl : String
  vnp_Version : String
  vnp_Command : String
  vnp_CurrCode : String
  deriving DecidableEq, Repr

/-- The parameter object assembled by `createPaymentUrl`
(`src/utils/vnpayService.js`) before sorting and signing.  `amount` is the
integer VND amount (scaled by 100 into `vnp_Amount`); the two `yyyyMMddHHmmss`
timestamps are passed in because `new Date()` is impure. -/
def createPaymentUrlParams (cfg : VnpayConfig) (orderId : String) (amount : Nat)
    (orderInfo orderType ipAddr locale bankCode createDate expireDateStr : String) :
    List (String × String) :=
  let base := [
    ("vnp_Version", cfg.vnp_Version),
    ("vnp_Command", cfg.vnp_Command),
    ("vnp_TmnCode", cfg.vnp_TmnCode),
    ("vnp_Locale", locale),
    ("vnp_CurrCode", cfg.vnp_CurrCode),
    ("vnp_TxnRef", orderId),
    ("vnp_OrderInfo", orderInfo),
    ("vnp_OrderType", orderType),
    ("vnp_Amount", natToString (amount * 100)),
    ("vnp_ReturnUrl", cfg.vnp_ReturnUrl),
    ("vnp_IpAddr", ipAddr),
    ("vnp_CreateDate", createDate),
    ("vnp_ExpireDate", expireDateStr)]
  if bankCode ≠ "" then base ++ [("vnp_BankCode", bankCode)] else base

/-- `createPaymentUrl` (`src/utils/vnpayService.js`): sign the sorted
canonical string with the HMAC (`createSecureHash`, whose crypto primitive is
the explicit `hmac` parameter), append `vnp_SecureHash`, and emit the
redirect URL. -/
def createPaymentUrl (hmac : String → String) (cfg : VnpayConfig) (orderId : String)
    (amount : Nat)
    (orderInfo orderType ipAddr locale bankCode createDate expireDateStr : String) :
    String :=
  let vnp_Params := sortObject
    (createPaymentUrlParams cfg orderId amount orderInfo orderType ipAddr locale
      bankCode createDate expireDateStr)
  let secureHash := hmac (stringifyNoEncode vnp_Params)
  cfg.vnp_Url ++ "?" ++ stringifyNoEncode (vnp_Params ++ [("vnp_SecureHash", secureHash)])

/-- The data object `verifyIpnCall` returns on a signature match.  Query
parameter values are strings; a missing parameter is `none` (JS `undefined`),
and `amount` carries the result of `vnp_Amount / 100` (`none` is `NaN`). -/
structure IpnData where
  orderId : Option String
  amount : Option JSNumber
  orderInfo : Option String
  responseCode : Option String
  transactionNo : Option String
  bankCode : Option String
  payDate : Option String
  transactionStatus : Option String
  isSuccess : Bool
  deriving DecidableEq, Repr

/-- `verifyIpnCall` (`src/utils/vnpayService.js`): take the inbound
`vnp_SecureHash`, delete it and `vnp_SecureHashType` from the parameter set,
re-sign the remaining sorted canonical string and require exact equality.
`verifyReturnUrl` is an alias of this function in the source.  Returns the
extracted data on success and `none` (the `isValid: false` result) on
mismatch. -/
def verifyIpnCall (hmac : String → String) (vnpParams : List (String × String)) :
    Option IpnData :=
  let secureHash := vnpParams.lookup "vnp_SecureHash"
  let params := vnpParams.filter (fun kv =>
    kv.fst != "vnp_SecureHash" && kv.fst != "vnp_SecureHashType")
  let checkSum := hmac (signData params)
  if secureHash == some checkSum then
    let rspCode := params.lookup "vnp_ResponseCode"
    some {
      orderId := params.lookup "vnp_TxnRef",
      amount := ((params.lookup "vnp_Amount").bind parseJsNumber).map (fun q => q.divByNat 100),
      orderInfo := params.lookup "vnp_OrderInfo",
      responseCode := rspCode,
      transactionNo := params.lookup "vnp_TransactionNo",
      bankCode := params.lookup "vnp_BankCode",
      payDate := params.lookup "vnp_PayDate",
      transactionStatus := params.lookup "vnp_TransactionStatus",
      isSuccess := rspCode == some "00" }
  else
    none

/-! ## Payment model (`src/models/payment/Payment.js`) -/

/-- Payment status vocabulary. -/
inductive PaymentStatus where
  | INITIATED
  | AUTHORIZED
  | FAILED
  | REFUNDED
  | CANCELLED
  deriving DecidableEq, Repr

/-- The `vnpayData` sub-document of a payment. -/
structure VnpayData where
  transactionNo : Option String := none
  bankCode : Option String := none
  cardType : Option String := none
  responseCode : Option String := none
  transactionStatus : Option String := none
  payDate : Option String := none
  secureHash : Option String := none
  deriving DecidableEq, Repr

/-- A JS object used to patch `vnpayData` by spreading
(`{ ...this.vnpayData, ...vnpayData }`): an outer `some` means the key is
present in the patch (possibly with an `undefined` value, the inner
`none`, which then clears the field). -/
structure VnpayPatch where
  transactionNo : Option (Option String) := none
  bankCode : Option (Option String) := none
  cardType : Option (Option String) := none
  responseCode : Option (Option String) := none
  transactionStatus : Option (Option String) := none
  payDate : Option (Option String) := none
  secureHash : Option (Option String) := none
  deriving DecidableEq, Repr

/-- `Object.keys(vnpayData).length > 0` is false iff no key is present. -/
def VnpayPatch.isEmptyPatch (p : VnpayPatch) : Bool :=
  p.transactionNo == none && p.bankCode == none && p.cardType == none &&
    p.responseCode == none && p.transactionStatus == none &&
    p.payDate == none && p.secureHash == none

/-- Spread a patch over existing `vnpayData`. -/
def VnpayPatch.applyTo (p : VnpayPatch) (d : VnpayData) : VnpayData :=
  { transactionNo := p.transactionNo.getD d.transactionNo,
    bankCode := p.bankCode.getD d.bankCode,
    cardType := p.cardType.getD d.cardType,
    responseCode := p.responseCode.getD d.responseCode,
    transactionStatus := p.transactionStatus.getD d.transactionStatus,
    payDate := p.payDate.getD d.payDate,
    secureHash := p.secureHash.getD d.secureHash }

/-- The payment fields the reconciliation protocol reads or writes
(`src/models/payment/Payment.js`).  Timestamps are abstract ticks. -/
structure Payment where
  paymentId : String
  bookingId : String
  orderId : String
  amount : JSNumber
  status : PaymentStatus
  vnpayData : VnpayData
  orderInfo : String
  updatedAt : Nat
  authorizedAt : Option Nat
  deriving DecidableEq, Repr

/-- `paymentSchema.methods.updateStatus` (`src/models/payment/Payment.js`):
set the status; on `AUTHORIZED` stamp `authorizedAt := now`; spread a
non-empty `vnpayData` patch; stamp `updatedAt := now`. -/
def updateStatus (now : Nat) (p : Payment) (status : PaymentStatus)
    (vnpayData : VnpayPatch) : Payment :=
  let p1 := { p with status := status }
  let p2 := if status = .AUTHORIZED then { p1 with authorizedAt := some now } else p1
  let p3 :=
    if vnpayData.isEmptyPatch then p2
    else { p2 with vnpayData := vnpayData.applyTo p2.vnpayData }
  { p3 with updatedAt := now }

/-- `Payment.findByOrderId` (a `findOne({ orderId })`): a JS `undefined`
order id matches nothing (the schema requires `orderId`). -/
def findByOrderId (db : List Payment) (orderId : Option String) : Option Payment :=
  match orderId with
  | none => none
  | some oid => db.find? (fun p => p.orderId == oid)

/-- `payment.save()`: write the document back by `paymentId`. -/
def savePayment (db : List Payment) (p : Payment) : List Payment :=
  db.map (fun q => if q.paymentId == p.paymentId then p else q)

/-- The fixed `{ RspCode, Message }` body of an IPN response. -/
structure IpnResponse where
  RspCode : String
  Message : String
  deriving DecidableEq, Repr

/-- The `vnpayData` patch the IPN success branch passes to `updateStatus`. -/
def ipnSuccessPatch (d : IpnData) : VnpayPatch :=
  { transactionNo := some d.transactionNo,
    bankCode := some d.bankCode,
    responseCode := some d.responseCode,
    transactionStatus := some d.transactionStatus,
    payDate := some d.payDate }

/-- The `vnpayData` patch the IPN failure branch passes to `updateStatus`. -/
def ipnFailurePatch (d : IpnData) : VnpayPatch :=
  { responseCode := some d.responseCode,
    transactionStatus := some d.transactionStatus }

/-- `payment.amount !== amount` in JS: a `NaN` callback amount (`none`)
compares unequal to everything. -/
def amountMatches (p : Payment) (a : Option JSNumber) : Bool :=
  match a with
  | some q => JSNumber.eqNum p.amount q
  | none => false

/-- `vnpayIpn` (`src/controllers/vnpayController.js`): verify the signature
(`"97"` on mismatch, nothing written), look up the payment by the callback's
order id (`"01"` if absent), compare amounts after the `/100` descaling
(`"04"`, nothing written), short-circuit when the status is already
`AUTHORIZED` (`"02"`, nothing written), then apply the success
(`AUTHORIZED`) or failure (`FAILED`) transition via `updateStatus` and
answer `"00"`. -/
def vnpayIpn (hmac : String → String) (db : List Payment) (now : Nat)
    (vnpParams : List (String × String)) : IpnResponse × List Payment :=
  match verifyIpnCall hmac vnpParams with
  | none => ({ RspCode := "97", Message := "Invalid signature" }, db)
  | some d =>
    match findByOrderId db d.orderId with
    | none => ({ RspCode := "01", Message := "Order not found" }, db)
    | some payment =>
      if ¬ amountMatches payment d.amount then
        ({ RspCode := "04", Message := "Invalid amount" }, db)
      else if payment.status = .AUTHORIZED then
        ({ RspCode := "02", Message := "Order already confirmed" }, db)
      else if d.isSuccess then
        ({ RspCode := "00", Message := "Success" },
         savePayment db (updateStatus now payment .AUTHORIZED (ipnSuccessPatch d)))
      else
        ({ RspCode := "00", Message := "Success" },
         savePayment db (updateStatus now payment .FAILED (ipnFailurePatch d)))

/-! ## Order id generation (`src/utils/orderIdGenerator.js`) -/

/-- `generateOrderId` (`src/utils/orderIdGenerator.js`).  The stored order
ids are passed in, wrapped in `Except` to model the `try`/`catch` around the
database query (`.error` is a thrown query error); `dateStr` is the
`YYYYMMDD` rendering of the current UTC+7 date (computed from `new Date()`
in the source); `timestamp` is `Date.now()` for the fallback branch.

The query `find({orderId: ^prefix}).sort({orderId: -1}).limit(1)` is the
first element of the descending code-unit sort of the ids with today's
prefix.  Its sequence segment (`split("-")[2]`) is parsed with `parseInt`
and incremented; a `NaN` parse propagates to the literal `"NaN"` rendering
(`padStart` leaves a 3-character string unchanged). -/
def generateOrderId (db : Except Unit (List String)) (dateStr : String)
    (timestamp : Nat) : String :=
  match db with
  | .error _ => "ORDER-" ++ natToString timestamp
  | .ok orderIds =>
    let datePrefix := "ORDER-" ++ dateStr ++ "-"
    let todayOrders :=
      (jsSortDesc (orderIds.filter (fun oid => startsWithB oid datePrefix))).take 1
    match todayOrders with
    | [] => datePrefix ++ padStart 3 '0' (natToString 1)
    | lastOrderId :: _ =>
      let lastSequence := (jsSplit '-' lastOrderId).get? 2
      match parseIntJs lastSequence with
      | none => datePrefix ++ "NaN"
      | some lastSeq => datePrefix ++ padStart 3 '0' (natToString (lastSeq + 1))

/-! ## Pod batch creation -/

/-- `getRowLetter` (`src/services/podService.js` and the legacy pod
controller): spreadsheet-style base-26 row letters, `0 → A`, `25 → Z`,
`26 → AA`.  The JS `while (index >= 0)` loop prepends one letter per
iteration and ends after the iteration in which `index < 26` (the next index
would be negative); it is written with explicit fuel, and `fuel = index + 1`
always suffices because the index strictly decreases. -/
def getRowLetterGo : Nat → Nat → String → String
  | 0, _, acc => acc
  | fuel + 1, index, acc =>
    let acc' := String.singleton (Char.ofNat (65 + index % 26)) ++ acc
    if index < 26 then acc' else getRowLetterGo fuel (index / 26 - 1) acc'

/-- `getRowLetter`: row index to spreadsheet letters. -/
def getRowLetter (index : Nat) : String :=
  getRowLetterGo (index + 1) index ""

/-- `generatePodCode`: `[RowLetter][ColNumber][Level]`, the column ordinal
zero-padded to two digits. -/
def generatePodCode (rowIndex colIndex : Nat) (level : String) : String :=
  getRowLetter rowIndex ++ padStart 2 '0' (natToString (colIndex + 1)) ++ level

/-- The request body of a pod creation call.  JS falsiness is modelled
directly: a missing number is `none` and `0` is falsy; a missing string is
`none` and `""` is falsy. -/
structure CreatePodsArgs where
  cluster_id : Option String := none
  numRows : Option Int := none
  numCols : Option Int := none
  code : Option String := none
  name : Option String := none
  deriving DecidableEq, Repr

/-- JS truthiness of a possibly-missing number. -/
def truthyInt : Option Int → Bool
  | none => false
  | some n => n != 0

/-- JS truthiness of a possibly-missing string. -/
def truthyStr : Option String → Bool
  | none => false
  | some s => s != ""

/-- The pod documents generated for one grid cell (lower then upper level),
`PodService.createPods` (`src/services/podService.js`).  The `id` field is a
random UUID default in the schema, irrelevant to every verified property and
modelled as `""`; amenity defaults are not modelled. -/
def gridCellPods (cluster_id : String) (row col : Nat) : List Pod :=
  [{ id := "", cluster_id := cluster_id, code := generatePodCode row col "L",
     name := "Pod " ++ generatePodCode row col "L", status := .AVAILABLE },
   { id := "", cluster_id := cluster_id, code := generatePodCode row col "U",
     name := "Pod " ++ generatePodCode row col "U", status := .AVAILABLE }]

/-- All pod documents of a grid request, row-major. -/
def gridPods (cluster_id : String) (numRows numCols : Nat) : List Pod :=
  (List.range numRows).flatMap (fun row =>
    (List.range numCols).flatMap (fun col => gridCellPods cluster_id row col))

/-- The tail of `PodService.createPods` (`src/services/podService.js`, the
batch-duplicate check, the existing-code check and the `insertMany`): reject
on an in-batch duplicate code, reject if any code already exists in the
cluster, otherwise insert the whole batch.  Both checks run before anything
is written, so a rejected batch inserts nothing. -/
def finishCreatePods (db : List Pod) (cluster_id : String) (podsToCreate : List Pod) :
    Except String (List Pod × List Pod) :=
  let codes := podsToCreate.map (fun p => p.code)
  let duplicates := (codes.enum.filter (fun ic => codes.indexOf ic.snd ≠ ic.fst)).map
    (fun ic => ic.snd)
  if duplicates.length > 0 then
    .error ("Duplicate pod codes detected: " ++ String.intercalate ", " duplicates)
  else
    let existingCodes := db.filter (fun p =>
      p.cluster_id == cluster_id && codes.contains p.code)
    if existingCodes.length > 0 then
      .error ("The following pod codes already exist in this cluster: " ++
        String.intercalate ", " (existingCodes.map (fun p => p.code)))
    else
      .ok (db ++ podsToCreate, podsToCreate)

/-- `PodService.createPods` (`src/services/podService.js`): validate the
cluster, then grid mode (dimension ceilings `MAX_ROWS = 10`,
`MAX_COLS = 20`, `MAX_TOTAL_PODS = 200`, two levels per cell) or single mode
(per-code uniqueness pre-check), then the shared `finishCreatePods` tail.
Error messages are the JS template-literal expansions. -/
def PodService.createPods (db : List Pod) (clusters : List String)
    (args : CreatePodsArgs) : Except String (List Pod × List Pod) :=
  if ¬ truthyStr args.cluster_id then
    .error "Cluster ID is required"
  else
    let cluster_id := args.cluster_id.getD ""
    if ¬ clusters.contains cluster_id then
      .error "Pod cluster not found"
    else if truthyInt args.numRows && truthyInt args.numCols then
      let numRows := args.numRows.getD 0
      let numCols := args.numCols.getD 0
      if numRows ≤ 0 ∨ numCols ≤ 0 then
        .error "Number of rows and columns must be positive integers"
      else if numRows > 10 then
        .error "Number of rows cannot exceed 10"
      else if numCols > 20 then
        .error "Number of columns cannot exceed 20"
      else
        let totalPods := numRows * numCols * 2
        if totalPods > 200 then
          .error ("Total pods cannot exceed 200. Current: " ++ natToString totalPods.toNat)
        else
          finishCreatePods db cluster_id (gridPods cluster_id numRows.toNat numCols.toNat)
    else if truthyStr args.code && truthyStr args.name then
      let code := args.code.getD ""
      if (db.find? (fun p => p.cluster_id == cluster_id && p.code == code)).isSome then
        .error ("Pod with code \x22" ++ code ++ "\x22 already exists in this cluster")
      else
        finishCreatePods db cluster_id
          [{ id := "", cluster_id := cluster_id, code := code,
             name := args.name.getD "", status := .AVAILABLE }]
    else
      .error ("Either (numRows and numCols) for grid creation OR (code and name) " ++
        "for single creation must be provided")

/-- MongoDB `insertMany(docs, { ordered: false })` against the compound
unique index `(cluster_id, code)`: every document is attempted; one whose
key collides with an already-stored document (including those inserted
earlier in the same batch) is recorded as a duplicate, the rest are
inserted.  Returns the new store and the duplicate codes. -/
def insertManyUnordered (db : List Pod) (docs : List Pod) : List Pod × List String :=
  docs.foldl (fun acc doc =>
    if acc.fst.any (fun p => p.cluster_id == doc.cluster_id && p.code == doc.code) then
      (acc.fst, acc.snd ++ [doc.code])
    else
      (acc.fst ++ [doc], acc.snd)) (db, [])

/-- An HTTP response of the legacy pod controller, plus the store after the
call. -/
structure ControllerResponse where
  status : Nat
  message : String
  deriving DecidableEq, Repr

/-- The grid pod documents of the legacy controller (same codes; the name is
`name - code` when a name is supplied, else `Pod code`). -/
def controllerGridPods (cluster_id : String) (nameOpt : Option String)
    (numRows numCols : Nat) : List Pod :=
  (List.range numRows).flatMap (fun row =>
    (List.range numCols).flatMap (fun col =>
      ["L", "U"].map (fun level =>
        let podCode := generatePodCode row col level
        { id := "", cluster_id := cluster_id, code := podCode,
          name := match nameOpt with
            | some n => if n ≠ "" then n ++ " - " ++ podCode else "Pod " ++ podCode
            | none => "Pod " ++ podCode,
          status := .AVAILABLE })))

/-- `createPods` of the legacy pod controller (the monolithic controller that
calls `Pod.insertMany(podsToCreate, { ordered: false })` itself): same
validations and grid generation, but no pre-check against existing codes —
the duplicate-key error of the unordered `insertMany` is caught afterwards
and answered with HTTP 409, *after* the non-colliding documents of the batch
have been inserted. -/
def podController.createPods (db : List Pod) (clusters : List String)
    (args : CreatePodsArgs) : ControllerResponse × List Pod :=
  if ¬ truthyStr args.cluster_id then
    ({ status := 400, message := "Cluster ID is required" }, db)
  else
    let cluster_id := args.cluster_id.getD ""
    if ¬ clusters.contains cluster_id then
      ({ status := 404, message := "Pod cluster not found" }, db)
    else if truthyInt args.numRows && truthyInt args.numCols then
      let numRows := args.numRows.getD 0
      let numCols := args.numCols.getD 0
      if numRows ≤ 0 ∨ numCols ≤ 0 then
        ({ status := 400,
           message := "Number of rows and columns must be positive integers" }, db)
      else if numRows > 10 then
        ({ status := 400, message := "Number of rows cannot exceed 10" }, db)
      else if numCols > 20 then
        ({ status := 400, message := "Number of columns cannot exceed 20" }, db)
      else if numRows * numCols * 2 > 200 then
        ({ status := 400,
           message := "Total pods would exceed maximum limit of 200" }, db)
      else
        let inserted := insertManyUnordered db
          (controllerGridPods cluster_id args.name numRows.toNat numCols.toNat)
        if inserted.snd.length > 0 then
          ({ status := 409, message := "Some pods already exist in this cluster" },
           inserted.fst)
        else
          ({ status := 201, message := "Successfully created pod(s)" }, inserted.fst)
    else if truthyStr args.code then
      match args.name with
      | none =>
        ({ status := 400, message := "Pod name is required for single pod creation" }, db)
      | some nm =>
        if nm = "" then
          ({ status := 400,
             message := "Pod name is required for single pod creation" }, db)
        else
          let inserted := insertManyUnordered db
            [{ id := "", cluster_id := cluster_id, code := args.code.getD "",
               name := nm, status := .AVAILABLE }]
          if inserted.snd.length > 0 then
            ({ status := 409, message := "Some pods already exist in this cluster" },
             inserted.fst)
          else
            ({ status := 201, message := "Successfully created pod(s)" }, inserted.fst)
    else
      ({ status := 400,
         message := "Either provide (numRows and numCols) for grid creation, or (code and name) for single pod creation" },
       db)

end OasisGo

/-! # Theorems -/

namespace OasisGo

/-- A key that `lookup` misses heads no pair of the list. -/
theorem lookup_none_forall {k : String} :
    ∀ {l : List (String × String)}, l.lookup k = none →
      ∀ p ∈ l, (p.1 == k) = false := by
  intro l
  induction l with
  | nil =>
    intro _ p hp
    cases hp
  | cons q t ih =>
    intro h p hp
    obtain ⟨qk, qv⟩ := q
    by_cases hqk : k = qk
    · subst hqk
      simp [List.lookup] at h
    · have hne : (k == qk) = false := beq_eq_false_iff_ne.mpr hqk
      simp only [List.lookup, hne] at h
      rcases List.mem_cons.mp hp with rfl | hpt
      · exact beq_eq_false_iff_ne.mpr (fun hh => hqk hh.symm)
      · exact ih h p hpt

/-- `lookup` skips a left part it misses. -/
theorem lookup_append_left_none {k : String} {l1 l2 : List (String × String)}
    (h : l1.lookup k = none) : (l1 ++ l2).lookup k = l2.lookup k := by
  induction l1 with
  | nil => rfl
  | cons q t ih =>
    obtain ⟨qk, qv⟩ := q
    by_cases hqk : k = qk
    · subst hqk
      simp [List.lookup] at h
    · have hne : (k == qk) = false := beq_eq_false_iff_ne.mpr hqk
      simp only [List.cons_append, List.lookup, hne] at h ⊢
      exact ih h

/-- The signature-stripping filter of `verifyIpnCall` leaves a parameter set
without signature keys untouched. -/
theorem filter_sig_keys_eq_self (params : List (String × String))
    (hH : params.lookup "vnp_SecureHash" = none)
    (hT : params.lookup "vnp_SecureHashType" = none) :
    params.filter (fun kv =>
      kv.fst != "vnp_SecureHash" && kv.fst != "vnp_SecureHashType") = params := by
  refine List.filter_eq_self.mpr ?_
  intro kv hkv
  have h1 := lookup_none_forall hH kv hkv
  have h2 := lookup_none_forall hT kv hkv
  simp [bne, h1, h2]

/-- After appending the signature pair to a parameter set without signature
keys, `verifyIpnCall`'s stripping filter recovers the original set. -/
theorem filter_sig_keys_append (params : List (String × String)) (sig : String)
    (hH : params.lookup "vnp_SecureHash" = none)
    (hT : params.lookup "vnp_SecureHashType" = none) :
    (params ++ [("vnp_SecureHash", sig)]).filter (fun kv =>
      kv.fst != "vnp_SecureHash" && kv.fst != "vnp_SecureHashType") = params := by
  rw [List.filter_append, filter_sig_keys_eq_self params hH hT]
  simp

/-- The appended signature pair is what `verifyIpnCall` extracts. -/
theorem lookup_sig_append (params : List (String × String)) (sig : String)
    (hH : params.lookup "vnp_SecureHash" = none) :
    (params ++ [("vnp_SecureHash", sig)]).lookup "vnp_SecureHash" = some sig := by
  rw [lookup_append_left_none hH]
  rfl

/-- `updateStatus` writes the requested status. -/
theorem updateStatus_status (now : Nat) (p : Payment) (st : PaymentStatus)
    (patch : VnpayPatch) : (updateStatus now p st patch).status = st := by
  unfold updateStatus
  dsimp only
  split <;> split <;> rfl

/-- `updateStatus` never touches the order id. -/
theorem updateStatus_orderId (now : Nat) (p : Payment) (st : PaymentStatus)
    (patch : VnpayPatch) : (updateStatus now p st patch).orderId = p.orderId := by
  unfold updateStatus
  dsimp only
  split <;> split <;> rfl

/-- `updateStatus` never touches the amount. -/
theorem updateStatus_amount (now : Nat) (p : Payment) (st : PaymentStatus)
    (patch : VnpayPatch) : (updateStatus now p st patch).amount = p.amount := by
  unfold updateStatus
  dsimp only
  split <;> split <;> rfl

/-- `updateStatus` never touches the payment id. -/
theorem updateStatus_paymentId (now : Nat) (p : Payment) (st : PaymentStatus)
    (patch : VnpayPatch) : (updateStatus now p st patch).paymentId = p.paymentId := by
  unfold updateStatus
  dsimp only
  split <;> split <;> rfl

/-- The `"02"` short circuit of `vnpayIpn`: a signature-valid callback whose
payment is found, amount-consistent and already `AUTHORIZED` answers
`"02"` and writes nothing. -/
theorem vnpayIpn_short_circuit (hm : String → String) (db : List Payment) (now : Nat)
    (prms : List (String × String)) (d : IpnData) (p : Payment)
    (hv : verifyIpnCall hm prms = some d)
    (hf : findByOrderId db d.orderId = some p)
    (ha : amountMatches p d.amount = true)
    (hs : p.status = .AUTHORIZED) :
    vnpayIpn hm db now prms =
      ({ RspCode := "02", Message := "Order already confirmed" }, db) := by
  simp [vnpayIpn, hv, hf, ha, hs]

/-- The success transition of `vnpayIpn` on a non-`AUTHORIZED` payment. -/
theorem vnpayIpn_success_step (hm : String → String) (db : List Payment) (now : Nat)
    (prms : List (String × String)) (d : IpnData) (p : Payment)
    (hv : verifyIpnCall hm prms = some d)
    (hf : findByOrderId db d.orderId = some p)
    (ha : amountMatches p d.amount = true)
    (hs : p.status ≠ .AUTHORIZED)
    (hsuc : d.isSuccess = true) :
    vnpayIpn hm db now prms =
      ({ RspCode := "00", Message := "Success" },
       savePayment db (updateStatus now p .AUTHORIZED (ipnSuccessPatch d))) := by
  simp [vnpayIpn, hv, hf, ha, hs, hsuc]

/-- C3: signature verification round-trips with signing — for every
(deterministic) HMAC primitive and every parameter set free of signature
keys, a callback carrying the signature computed over the sorted
URL-encoded canonical string verifies successfully; and any single-character
mutation of that signature makes verification fail, upon which the IPN
handler answers `"97"` and leaves the payment store untouched. -/
theorem verify_sign_roundtrip (hm : String → String) (params : List (String × String))
    (hH : params.lookup "vnp_SecureHash" = none)
    (hT : params.lookup "vnp_SecureHashType" = none) :
    (verifyIpnCall hm (params ++ [("vnp_SecureHash", hm (signData params))])).isSome = true ∧
    (∀ (l1 l2 : List Char) (a b : Char),
      hm (signData params) = String.mk (l1 ++ a :: l2) → a ≠ b →
      verifyIpnCall hm (params ++ [("vnp_SecureHash", String.mk (l1 ++ b :: l2))]) = none ∧
      ∀ (db : List Payment) (now : Nat),
        vnpayIpn hm db now (params ++ [("vnp_SecureHash", String.mk (l1 ++ b :: l2))]) =
          ({ RspCode := "97", Message := "Invalid signature" }, db)) := by
  constructor
  · simp only [verifyIpnCall,
      lookup_sig_append params (hm (signData params)) hH,
      filter_sig_keys_append params (hm (signData params)) hH hT,
      beq_self_eq_true, if_true]
    rfl
  · intro l1 l2 a b hmeq hab
    have hne : String.mk (l1 ++ b :: l2) ≠ hm (signData params) := by
      rw [hmeq]
      intro hcon
      have hdata := congrArg String.data hcon
      have hcons := List.append_cancel_left hdata
      injection hcons with hba _
      exact hab hba.symm
    have hfail : verifyIpnCall hm
        (params ++ [("vnp_SecureHash", String.mk (l1 ++ b :: l2))]) = none := by
      simp only [verifyIpnCall,
        lookup_sig_append params (String.mk (l1 ++ b :: l2)) hH,
        filter_sig_keys_append params (String.mk (l1 ++ b :: l2)) hH hT]
      rw [if_neg]
      intro hbeq
      exact hne (by simpa using hbeq)
    refine ⟨hfail, ?_⟩
    intro db now
    simp [vnpayIpn, hfail]

/-- C3 witness: the exact parameter set `createPaymentUrl` assembles for a
concrete request, signed with a concrete deterministic stand-in for the
HMAC, verifies; and the theorem's mutation clause applies to it. -/
theorem verify_sign_roundtrip_witness :
    ((createPaymentUrlParams ⟨"TMN01", "https://pay.example", "http://ret.example",
          "2.1.0", "pay", "VND"⟩ "ORDER-20250601-001" 250000 "booking deposit"
          "billpayment" "127.0.0.1" "vn" "NCB" "20250601120000"
          "20250601121500").lookup "vnp_SecureHash" = none) ∧
    ((verifyIpnCall (fun s => "HM" ++ s)
        (createPaymentUrlParams ⟨"TMN01", "https://pay.example", "http://ret.example",
            "2.1.0", "pay", "VND"⟩ "ORDER-20250601-001" 250000 "booking deposit"
            "billpayment" "127.0.0.1" "vn" "NCB" "20250601120000" "20250601121500" ++
          [("vnp_SecureHash", (fun s => "HM" ++ s)
            (signData (createPaymentUrlParams ⟨"TMN01", "https://pay.example",
              "http://ret.example", "2.1.0", "pay", "VND"⟩ "ORDER-20250601-001" 250000
              "booking deposit" "billpayment" "127.0.0.1" "vn" "NCB" "20250601120000"
              "20250601121500")))])).isSome = true) :=
  ⟨by decide,
   (verify_sign_roundtrip (fun s => "HM" ++ s)
     (createPaymentUrlParams ⟨"TMN01", "https://pay.example", "http://ret.example",
       "2.1.0", "pay", "VND"⟩ "ORDER-20250601-001" 250000 "booking deposit"
       "billpayment" "127.0.0.1" "vn" "NCB" "20250601120000" "20250601121500")
     (by decide) (by decide)).1⟩

/-- C1 counterexample: a payment in the terminal state `FAILED` (≠ INITIATED)
is *not* returned unchanged by a signature-valid successful callback — the
IPN handler only short-circuits on `AUTHORIZED`, so the record is re-written
to `AUTHORIZED` (with a fresh `authorizedAt`). -/
theorem vnpayIpn_terminal_counterexample :
    (⟨"P1", "B1", "ORDER-20250601-001", 100, .FAILED, {}, "x", 0, none⟩ : Payment).status ≠
      .INITIATED ∧
    (vnpayIpn (fun _ => "sig")
        [⟨"P1", "B1", "ORDER-20250601-001", 100, .FAILED, {}, "x", 0, none⟩] 5
        [("vnp_TxnRef", "ORDER-20250601-001"), ("vnp_Amount", "10000"),
         ("vnp_ResponseCode", "00"), ("vnp_SecureHash", "sig")]).2 ≠
      [⟨"P1", "B1", "ORDER-20250601-001", 100, .FAILED, {}, "x", 0, none⟩] ∧
    ((vnpayIpn (fun _ => "sig")
        [⟨"P1", "B1", "ORDER-20250601-001", 100, .FAILED, {}, "x", 0, none⟩] 5
        [("vnp_TxnRef", "ORDER-20250601-001"), ("vnp_Amount", "10000"),
         ("vnp_ResponseCode", "00"), ("vnp_SecureHash", "sig")]).2.map
      (fun q => q.status)) = [.AUTHORIZED] :=
  ⟨by decide, by decide, by decide⟩

/-- C1 (amended): a payment already in the success terminal state
`AUTHORIZED` is left unchanged by any signature-valid, amount-consistent
callback for its order id, which is answered with the already-confirmed
result `"02"`; consequently delivering the same successful IPN payload twice
yields exactly one transition — the first delivery answers `"00"` and sets
`AUTHORIZED`, the second answers `"02"` and alters nothing (in particular
not `authorizedAt`). -/
theorem vnpayIpn_idempotent_after_authorized :
    (∀ (hm : String → String) (db : List Payment) (now : Nat)
        (prms : List (String × String)) (d : IpnData) (p : Payment),
      verifyIpnCall hm prms = some d →
      findByOrderId db d.orderId = some p →
      amountMatches p d.amount = true →
      p.status = .AUTHORIZED →
      vnpayIpn hm db now prms =
        ({ RspCode := "02", Message := "Order already confirmed" }, db)) ∧
    (∀ (hm : String → String) (p : Payment) (prms : List (String × String))
        (d : IpnData) (now1 now2 : Nat),
      verifyIpnCall hm prms = some d →
      d.isSuccess = true →
      findByOrderId [p] d.orderId = some p →
      amountMatches p d.amount = true →
      p.status = .INITIATED →
      (vnpayIpn hm [p] now1 prms).1.RspCode = "00" ∧
      ((vnpayIpn hm [p] now1 prms).2.map (fun q => q.status)) = [.AUTHORIZED] ∧
      vnpayIpn hm ((vnpayIpn hm [p] now1 prms).2) now2 prms =
        ({ RspCode := "02", Message := "Order already confirmed" },
         (vnpayIpn hm [p] now1 prms).2)) := by
  constructor
  · intro hm db now prms d p hv hf ha hs
    exact vnpayIpn_short_circuit hm db now prms d p hv hf ha hs
  · intro hm p prms d now1 now2 hv hsuc hf ha hini
    obtain ⟨oid, hoid, hbeq⟩ : ∃ oid, d.orderId = some oid ∧ (p.orderId == oid) = true := by
      cases hd : d.orderId with
      | none =>
        unfold findByOrderId at hf
        rw [hd] at hf
        cases hf
      | some oid =>
        unfold findByOrderId at hf
        rw [hd] at hf
        refine ⟨oid, rfl, ?_⟩
        by_cases hb : (p.orderId == oid) = true
        · exact hb
        · exfalso
          have hb' : (p.orderId == oid) = false := by
            revert hb
            cases (p.orderId == oid) <;> simp
          simp [List.find?, hb'] at hf
    have hnotAuth : p.status ≠ .AUTHORIZED := by
      rw [hini]
      intro hcon
      cases hcon
    have hfirst := vnpayIpn_success_step hm [p] now1 prms d p hv hf ha hnotAuth hsuc
    have hsave : savePayment [p] (updateStatus now1 p .AUTHORIZED (ipnSuccessPatch d)) =
        [updateStatus now1 p .AUTHORIZED (ipnSuccessPatch d)] := by
      unfold savePayment
      simp [updateStatus_paymentId]
    rw [hsave] at hfirst
    refine ⟨by rw [hfirst], by rw [hfirst]; simp [updateStatus_status], ?_⟩
    rw [hfirst]
    refine vnpayIpn_short_circuit hm _ now2 prms d
      (updateStatus now1 p .AUTHORIZED (ipnSuccessPatch d)) hv ?_ ?_ ?_
    · unfold findByOrderId
      rw [hoid]
      simp [List.find?, updateStatus_orderId, hbeq]
    · unfold amountMatches at ha ⊢
      cases hd : d.amount with
      | none =>
        rw [hd] at ha
        cases ha
      | some q =>
        rw [hd] at ha
        rw [updateStatus_amount]
        exact ha
    · exact updateStatus_status ..

/-- C1 witness: a concrete double delivery — `INITIATED` payment, valid
successful payload — transitions once and is answered `"02"` unchanged the
second time. -/
theorem vnpayIpn_idempotent_after_authorized_witness :
    (verifyIpnCall (fun _ => "sig")
        [("vnp_TxnRef", "ORDER-20250601-001"), ("vnp_Amount", "10000"),
         ("vnp_ResponseCode", "00"), ("vnp_SecureHash", "sig")] =
      some { orderId := some "ORDER-20250601-001", amount := some ⟨10000, 100⟩,
             orderInfo := none, responseCode := some "00", transactionNo := none,
             bankCode := none, payDate := none, transactionStatus := none,
             isSuccess := true }) ∧
    ((vnpayIpn (fun _ => "sig")
        [⟨"P1", "B1", "ORDER-20250601-001", 100, .INITIATED, {}, "x", 0, none⟩] 3
        [("vnp_TxnRef", "ORDER-20250601-001"), ("vnp_Amount", "10000"),
         ("vnp_ResponseCode", "00"), ("vnp_SecureHash", "sig")]).1.RspCode = "00" ∧
     ((vnpayIpn (fun _ => "sig")
        [⟨"P1", "B1", "ORDER-20250601-001", 100, .INITIATED, {}, "x", 0, none⟩] 3
        [("vnp_TxnRef", "ORDER-20250601-001"), ("vnp_Amount", "10000"),
         ("vnp_ResponseCode", "00"), ("vnp_SecureHash", "sig")]).2.map
       (fun q => q.status)) = [.AUTHORIZED] ∧
     vnpayIpn (fun _ => "sig")
        ((vnpayIpn (fun _ => "sig")
          [⟨"P1", "B1", "ORDER-20250601-001", 100, .INITIATED, {}, "x", 0, none⟩] 3
          [("vnp_TxnRef", "ORDER-20250601-001"), ("vnp_Amount", "10000"),
           ("vnp_ResponseCode", "00"), ("vnp_SecureHash", "sig")]).2) 9
        [("vnp_TxnRef", "ORDER-20250601-001"), ("vnp_Amount", "10000"),
         ("vnp_ResponseCode", "00"), ("vnp_SecureHash", "sig")] =
       ({ RspCode := "02", Message := "Order already confirmed" },
        (vnpayIpn (fun _ => "sig")
          [⟨"P1", "B1", "ORDER-20250601-001", 100, .INITIATED, {}, "x", 0, none⟩] 3
          [("vnp_TxnRef", "ORDER-20250601-001"), ("vnp_Amount", "10000"),
           ("vnp_ResponseCode", "00"), ("vnp_SecureHash", "sig")]).2)) :=
  ⟨by decide,
   vnpayIpn_idempotent_after_authorized.2 (fun _ => "sig")
     ⟨"P1", "B1", "ORDER-20250601-001", 100, .INITIATED, {}, "x", 0, none⟩
     [("vnp_TxnRef", "ORDER-20250601-001"), ("vnp_Amount", "10000"),
      ("vnp_ResponseCode", "00"), ("vnp_SecureHash", "sig")]
     { orderId := some "ORDER-20250601-001", amount := some ⟨10000, 100⟩,
       orderInfo := none, responseCode := some "00", transactionNo := none,
       bankCode := none, payDate := none, transactionStatus := none,
       isSuccess := true }
     3 9 (by decide) (by decide) (by decide) (by decide) (by decide)⟩

/-- C4: a signature-valid callback whose descaled amount differs from the
stored payment amount is rejected with RspCode `"04"` and the payment store
is untouched — in particular an `INITIATED` payment stays `INITIATED`. -/
theorem vnpayIpn_amount_mismatch_rejected (hm : String → String) (db : List Payment)
    (now : Nat) (prms : List (String × String)) (d : IpnData) (p : Payment)
    (hv : verifyIpnCall hm prms = some d)
    (hf : findByOrderId db d.orderId = some p)
    (ha : amountMatches p d.amount = false) :
    vnpayIpn hm db now prms = ({ RspCode := "04", Message := "Invalid amount" }, db) := by
  simp [vnpayIpn, hv, hf, ha]

/-- C4 witness: stored amount 250000, callback amount 300000 (`vnp_Amount`
`"30000000"`): RspCode `"04"`, payment still `INITIATED`. -/
theorem vnpayIpn_amount_mismatch_rejected_witness :
    (verifyIpnCall (fun _ => "sig")
        [("vnp_TxnRef", "ORDER-20250601-002"), ("vnp_Amount", "30000000"),
         ("vnp_ResponseCode", "00"), ("vnp_SecureHash", "sig")] =
      some { orderId := some "ORDER-20250601-002", amount := some ⟨30000000, 100⟩,
             orderInfo := none, responseCode := some "00", transactionNo := none,
             bankCode := none, payDate := none, transactionStatus := none,
             isSuccess := true }) ∧
    vnpayIpn (fun _ => "sig")
        [⟨"P2", "B2", "ORDER-20250601-002", 250000, .INITIATED, {}, "x", 0, none⟩] 7
        [("vnp_TxnRef", "ORDER-20250601-002"), ("vnp_Amount", "30000000"),
         ("vnp_ResponseCode", "00"), ("vnp_SecureHash", "sig")] =
      ({ RspCode := "04", Message := "Invalid amount" },
       [⟨"P2", "B2", "ORDER-20250601-002", 250000, .INITIATED, {}, "x", 0, none⟩]) :=
  ⟨by decide,
   vnpayIpn_amount_mismatch_rejected (fun _ => "sig")
     [⟨"P2", "B2", "ORDER-20250601-002", 250000, .INITIATED, {}, "x", 0, none⟩] 7
     [("vnp_TxnRef", "ORDER-20250601-002"), ("vnp_Amount", "30000000"),
      ("vnp_ResponseCode", "00"), ("vnp_SecureHash", "sig")]
     { orderId := some "ORDER-20250601-002", amount := some ⟨30000000, 100⟩,
       orderInfo := none, responseCode := some "00", transactionNo := none,
       bankCode := none, payDate := none, transactionStatus := none,
       isSuccess := true }
     ⟨"P2", "B2", "ORDER-20250601-002", 250000, .INITIATED, {}, "x", 0, none⟩
     (by decide) (by decide) (by decide)⟩

/-- The fuel of `getRowLetterGo` is irrelevant once it exceeds the index,
and the accumulator is simply appended. -/
theorem getRowLetterGo_acc :
    ∀ (m : Nat), ∀ (fuel : Nat) (acc : String), m < fuel →
      getRowLetterGo fuel m acc = getRowLetter m ++ acc := by
  intro m
  induction m using Nat.strong_induction_on with
  | _ m ih =>
    intro fuel acc hf
    obtain ⟨f, rfl⟩ : ∃ f, fuel = f + 1 := ⟨fuel - 1, by omega⟩
    by_cases h26 : m < 26
    · simp [getRowLetterGo, getRowLetter, h26, String.append_empty]
    · have hdivlt : m / 26 - 1 < m := by
        have h1 : m / 26 < m := Nat.div_lt_self (by omega) (by omega)
        omega
      have hstep : ∀ (g : Nat) (acc' : String), getRowLetterGo (g + 1) m acc' =
          getRowLetterGo g (m / 26 - 1)
            (String.singleton (Char.ofNat (65 + m % 26)) ++ acc') := by
        intro g acc'
        simp [getRowLetterGo, h26]
      rw [hstep f acc, ih _ hdivlt f _ (by omega)]
      have hm : getRowLetter m =
          getRowLetter (m / 26 - 1) ++ String.singleton (Char.ofNat (65 + m % 26)) := by
        unfold getRowLetter
        rw [hstep m "", ih _ hdivlt m _ hdivlt, String.append_empty]
        rfl
      rw [hm, String.append_assoc]

/-- C9: grid creation with `numRows = 2, numCols = 2` through
`PodService.createPods` yields exactly 8 pods with codes
`A01L A01U A02L A02U B01L B01U B02L B02U`; and in general the code of row
`r`, column `c`, level `l` is the spreadsheet-style base-26 letters of `r`
(characterised by the bijective base-26 recurrence), followed by `c + 1`
zero-padded to two digits, followed by the level suffix. -/
theorem gridCreation_2x2_codes :
    ((PodService.createPods [] ["c1"] ⟨some "c1", some 2, some 2, none, none⟩).toOption.map
      (fun r => r.2.map (fun p => p.code))) =
      some ["A01L", "A01U", "A02L", "A02U", "B01L", "B01U", "B02L", "B02U"] ∧
    ((PodService.createPods [] ["c1"] ⟨some "c1", some 2, some 2, none, none⟩).toOption.map
      (fun r => r.2.length)) = some 8 ∧
    (∀ (rowIndex colIndex : Nat) (level : String),
      generatePodCode rowIndex colIndex level =
        getRowLetter rowIndex ++ padStart 2 '0' (natToString (colIndex + 1)) ++ level) ∧
    (∀ index : Nat, getRowLetter index =
      (if 26 ≤ index then getRowLetter (index / 26 - 1) else "") ++
        String.singleton (Char.ofNat (65 + index % 26))) := by
  refine ⟨by decide, by decide, fun _ _ _ => rfl, ?_⟩
  intro n
  by_cases h26 : n < 26
  · rw [if_neg (by omega)]
    simp [getRowLetter, getRowLetterGo, h26, String.append_empty, String.empty_append]
  · rw [if_pos (by omega)]
    unfold getRowLetter
    have hdivlt : n / 26 - 1 < n := by
      have h1 : n / 26 < n := Nat.div_lt_self (by omega) (by omega)
      omega
    have hstep : getRowLetterGo (n + 1) n "" =
        getRowLetterGo n (n / 26 - 1)
          (String.singleton (Char.ofNat (65 + n % 26)) ++ "") := by
      simp [getRowLetterGo, h26]
    rw [hstep, getRowLetterGo_acc _ n _ hdivlt, String.append_empty]
    rfl

/-- All pods generated for a grid carry the requested cluster id. -/
theorem gridPods_cluster (cid : String) (r c : Nat) :
    ∀ p ∈ gridPods cid r c, p.cluster_id = cid := by
  intro p hp
  unfold gridPods at hp
  rw [List.mem_flatMap] at hp
  obtain ⟨row, -, hp⟩ := hp
  rw [List.mem_flatMap] at hp
  obtain ⟨col, -, hp⟩ := hp
  simp only [gridCellPods, List.mem_cons, List.not_mem_nil, or_false] at hp
  rcases hp with rfl | rfl
  · rfl
  · rfl

/-- A code collision with a stored pod of the same cluster makes the
`finishCreatePods` tail throw (before anything is written). -/
theorem finishCreatePods_collision_error (db : List Pod) (cid : String)
    (docs : List Pod) (q : Pod) (hq : q ∈ db) (hqc : q.cluster_id = cid)
    (hcode : q.code ∈ docs.map (fun p => p.code)) :
    ∃ msg, finishCreatePods db cid docs = .error msg := by
  simp only [finishCreatePods]
  split
  · exact ⟨_, rfl⟩
  · have hmem : q ∈ db.filter (fun p =>
        p.cluster_id == cid && (docs.map (fun p => p.code)).contains p.code) := by
      refine List.mem_filter.mpr ⟨hq, ?_⟩
      rw [Bool.and_eq_true]
      exact ⟨beq_iff_eq.mpr hqc, List.elem_eq_true_of_mem hcode⟩
    rw [if_pos (by
      have := List.length_pos.mpr (List.ne_nil_of_mem hmem)
      omega)]
    exact ⟨_, rfl⟩

/-- A successful `finishCreatePods` appended exactly its batch and certifies
that no batch code already existed in the cluster. -/
theorem finishCreatePods_ok_shape (db : List Pod) (cid : String) (docs : List Pod)
    (db' created : List Pod)
    (h : finishCreatePods db cid docs = .ok (db', created)) :
    db' = db ++ docs ∧ created = docs ∧
    ∀ q ∈ db, q.cluster_id = cid → q.code ∉ docs.map (fun p => p.code) := by
  simp only [finishCreatePods] at h
  split at h
  · cases h
  · split at h
    · cases h
    · rename_i hlen
      injection h with h
      injection h with h1 h2
      refine ⟨h1.symm, h2.symm, ?_⟩
      intro q hq hqc hcode
      have hmem : q ∈ db.filter (fun p =>
          p.cluster_id == cid && (docs.map (fun p => p.code)).contains p.code) := by
        refine List.mem_filter.mpr ⟨hq, ?_⟩
        rw [Bool.and_eq_true]
        exact ⟨beq_iff_eq.mpr hqc, List.elem_eq_true_of_mem hcode⟩
      exact hlen (by
        have := List.length_pos.mpr (List.ne_nil_of_mem hmem)
        omega)

/-- C7 counterexample: the legacy pod controller (the path that calls
`insertMany` with `ordered: false` and reports duplicates afterwards) is not
all-or-nothing — a 1×1 grid whose `A01L` collides with an existing pod
answers 409 *and still inserts* the non-colliding `A01U`. -/
theorem podController_partial_insertion_counterexample :
    (podController.createPods [⟨"x1", "c1", "A01L", "Pod A01L", .AVAILABLE⟩] ["c1"]
        ⟨some "c1", some 1, some 1, none, none⟩).1.status = 409 ∧
    (podController.createPods [⟨"x1", "c1", "A01L", "Pod A01L", .AVAILABLE⟩] ["c1"]
        ⟨some "c1", some 1, some 1, none, none⟩).2.map (fun p => p.code) =
      ["A01L", "A01U"] ∧
    (podController.createPods [⟨"x1", "c1", "A01L", "Pod A01L", .AVAILABLE⟩] ["c1"]
        ⟨some "c1", some 1, some 1, none, none⟩).2 ≠
      [⟨"x1", "c1", "A01L", "Pod A01L", .AVAILABLE⟩] :=
  ⟨by decide, by decide, by decide⟩

/-- C7 (amended): the `PodService.createPods` path *is* all-or-nothing —
any grid request one of whose generated codes collides with an existing pod
of the same cluster is rejected outright (no pod is created), and any
successful call appended exactly its batch, whose codes were all fresh in
the cluster.  (The legacy controller path with unordered `insertMany` can
insert the non-colliding rest of a colliding batch.) -/
theorem PodService_createPods_all_or_nothing :
    (∀ (db : List Pod) (clusters : List String) (args : CreatePodsArgs) (q : Pod),
      q ∈ db → q.cluster_id = args.cluster_id.getD "" →
      q.code ∈ (gridPods (args.cluster_id.getD "") (args.numRows.getD 0).toNat
        (args.numCols.getD 0).toNat).map (fun p => p.code) →
      (truthyInt args.numRows && truthyInt args.numCols) = true →
      ∃ msg, PodService.createPods db clusters args = .error msg) ∧
    (∀ (db : List Pod) (clusters : List String) (args : CreatePodsArgs)
        (db' created : List Pod),
      PodService.createPods db clusters args = .ok (db', created) →
      db' = db ++ created ∧
      ∀ q ∈ db, ∀ p ∈ created, q.cluster_id = p.cluster_id → q.code ≠ p.code) := by
  constructor
  · intro db clusters args q hq hqc hcode htruthy
    simp only [PodService.createPods, htruthy, if_true]
    split
    · exact ⟨_, rfl⟩
    split
    · exact ⟨_, rfl⟩
    split
    · exact ⟨_, rfl⟩
    split
    · exact ⟨_, rfl⟩
    split
    · exact ⟨_, rfl⟩
    split
    · exact ⟨_, rfl⟩
    exact finishCreatePods_collision_error _ _ _ q hq hqc hcode
  · intro db clusters args db' created h
    simp only [PodService.createPods] at h
    split at h
    · cases h
    · split at h
      · cases h
      · split at h
        · split at h
          · cases h
          · split at h
            · cases h
            · split at h
              · cases h
              · split at h
                · cases h
                · obtain ⟨h1, h2, h3⟩ := finishCreatePods_ok_shape _ _ _ _ _ h
                  subst h2
                  refine ⟨h1, ?_⟩
                  intro q hq p hp hqc hcodes
                  have hpc := gridPods_cluster _ _ _ p hp
                  refine h3 q hq (hqc.trans hpc) ?_
                  rw [hcodes]
                  exact List.mem_map_of_mem _ hp
        · split at h
          · split at h
            · cases h
            · obtain ⟨h1, h2, h3⟩ := finishCreatePods_ok_shape _ _ _ _ _ h
              subst h2
              refine ⟨h1, ?_⟩
              intro q hq p hp hqc hcodes
              rcases List.mem_singleton.mp hp with rfl
              refine h3 q hq hqc ?_
              rw [hcodes]
              exact List.mem_map_of_mem _ hp
          · cases h

/-- C7 witness: a 2×2 grid against a cluster already holding `B01L` is
rejected by the service path with no insertion. -/
theorem PodService_createPods_all_or_nothing_witness :
    ((⟨"x9", "c1", "B01L", "Pod B01L", .AVAILABLE⟩ : Pod) ∈
        [(⟨"x9", "c1", "B01L", "Pod B01L", .AVAILABLE⟩ : Pod)] ∧
      (⟨"x9", "c1", "B01L", "Pod B01L", .AVAILABLE⟩ : Pod).cluster_id =
        ((⟨some "c1", some 2, some 2, none, none⟩ : CreatePodsArgs).cluster_id.getD "") ∧
      (⟨"x9", "c1", "B01L", "Pod B01L", .AVAILABLE⟩ : Pod).code ∈
        (gridPods ((⟨some "c1", some 2, some 2, none, none⟩ :
            CreatePodsArgs).cluster_id.getD "")
          ((⟨some "c1", some 2, some 2, none, none⟩ :
            CreatePodsArgs).numRows.getD 0).toNat
          ((⟨some "c1", some 2, some 2, none, none⟩ :
            CreatePodsArgs).numCols.getD 0).toNat).map (fun p => p.code)) ∧
    ∃ msg, PodService.createPods [⟨"x9", "c1", "B01L", "Pod B01L", .AVAILABLE⟩] ["c1"]
        ⟨some "c1", some 2, some 2, none, none⟩ = .error msg :=
  ⟨⟨by decide, by decide, by decide⟩,
   PodService_createPods_all_or_nothing.1
     [⟨"x9", "c1", "B01L", "Pod B01L", .AVAILABLE⟩] ["c1"]
     ⟨some "c1", some 2, some 2, none, none⟩
     ⟨"x9", "c1", "B01L", "Pod B01L", .AVAILABLE⟩
     (by decide) (by decide) (by decide) (by decide)⟩

/-! ### Decimal rendering, code-unit order and `split`, for the order-id
generator -/

/-- The fuel of `natToStringGo` is irrelevant once it exceeds the argument,
and the accumulator is simply appended. -/
theorem natToStringGo_acc :
    ∀ (m : Nat), ∀ (fuel : Nat) (acc : String), m < fuel →
      natToStringGo fuel m acc = natToString m ++ acc := by
  intro m
  induction m using Nat.strong_induction_on with
  | _ m ih =>
    intro fuel acc hf
    obtain ⟨f, rfl⟩ : ∃ f, fuel = f + 1 := ⟨fuel - 1, by omega⟩
    by_cases h10 : m < 10
    · simp [natToStringGo, natToString, h10, String.append_empty]
    · have hdivlt : m / 10 < m := Nat.div_lt_self (by omega) (by omega)
      have hstep : ∀ (g : Nat) (acc' : String), natToStringGo (g + 1) m acc' =
          natToStringGo g (m / 10)
            (String.singleton (Char.ofNat (48 + m % 10)) ++ acc') := by
        intro g acc'
        simp [natToStringGo, h10]
      rw [hstep f acc, ih _ hdivlt f _ (by omega)]
      have hm : natToString m =
          natToString (m / 10) ++ String.singleton (Char.ofNat (48 + m % 10)) := by
        unfold natToString
        rw [hstep m "", ih _ hdivlt m _ hdivlt, String.append_empty]
        rfl
      rw [hm, String.append_assoc]

/-- One-digit rendering. -/
theorem natToString_lt10 (n : Nat) (h : n < 10) :
    natToString n = String.mk [Char.ofNat (48 + n)] := by
  have : 48 + n % 10 = 48 + n := by omega
  simp [natToString, natToStringGo, h, this, String.append_empty]
  rfl

/-- Peeling the last digit off the rendering of a number `≥ 10`. -/
theorem natToString_ge10 (n : Nat) (h : 10 ≤ n) :
    natToString n = natToString (n / 10) ++ String.mk [Char.ofNat (48 + n % 10)] := by
  have h10 : ¬ n < 10 := by omega
  have hdivlt : n / 10 < n := Nat.div_lt_self (by omega) (by omega)
  have hstep : natToStringGo (n + 1) n "" =
      natToStringGo n (n / 10) (String.singleton (Char.ofNat (48 + n % 10)) ++ "") := by
    simp [natToStringGo, h10]
  unfold natToString
  rw [hstep, natToStringGo_acc _ n _ hdivlt, String.append_empty]
  rfl

/-- Digit characters have codepoint `48 + d`. -/
theorem digit_toNat : ∀ d < 10, (Char.ofNat (48 + d)).toNat = 48 + d := by decide

/-- Digit characters satisfy `Char.isDigit`. -/
theorem digit_isDigit : ∀ d < 10, (Char.ofNat (48 + d)).isDigit = true := by decide

/-- The three characters of a 3-zero-padded sequence below 1000. -/
theorem pad3_data (n : Nat) (h : n ≤ 999) :
    (padStart 3 '0' (natToString n)).data =
      [Char.ofNat (48 + n / 100), Char.ofNat (48 + n / 10 % 10),
       Char.ofNat (48 + n % 10)] := by
  by_cases h10 : n < 10
  · rw [natToString_lt10 n h10]
    have e1 : n / 100 = 0 := by omega
    have e2 : n / 10 % 10 = 0 := by omega
    rw [e1, e2, Nat.mod_eq_of_lt h10]
    rfl
  · by_cases h100 : n < 100
    · rw [natToString_ge10 n (by omega), natToString_lt10 (n / 10) (by omega)]
      have e1 : n / 100 = 0 := by omega
      have e2 : n / 10 % 10 = n / 10 := by omega
      rw [e1, e2]
      rfl
    · rw [natToString_ge10 n (by omega), natToString_ge10 (n / 10) (by omega),
        natToString_lt10 (n / 10 / 10) (by omega)]
      have e1 : n / 10 / 10 = n / 100 := by omega
      rw [e1]
      rfl

/-- Code-unit order is reflexive. -/
theorem charListLe_refl : ∀ l, charListLe l l = true := by
  intro l
  induction l with
  | nil => rfl
  | cons x xs ih => simp [charListLe, ih]

/-- Code-unit order is total. -/
theorem charListLe_total : ∀ a b, charListLe a b = true ∨ charListLe b a = true := by
  intro a
  induction a with
  | nil =>
    intro b
    left
    rfl
  | cons x xs ih =>
    intro b
    cases b with
    | nil =>
      right
      rfl
    | cons y ys =>
      by_cases hxy : x.toNat = y.toNat
      · rcases ih ys with h | h
        · left
          simp [charListLe, hxy, h]
        · right
          simp [charListLe, hxy.symm, h]
      · by_cases hlt : x.toNat < y.toNat
        · left
          simp [charListLe, hxy, hlt]
        · right
          have h1 : ¬ y.toNat = x.toNat := fun hh => hxy hh.symm
          have h2 : y.toNat < x.toNat := by omega
          simp [charListLe, h1, h2]

/-- Code-unit order is transitive. -/
theorem charListLe_trans :
    ∀ a b c, charListLe a b = true → charListLe b c = true → charListLe a c = true := by
  intro a
  induction a with
  | nil =>
    intro b c _ _
    rfl
  | cons x xs ih =>
    intro b c hab hbc
    cases b with
    | nil => simp [charListLe] at hab
    | cons y ys =>
      cases c with
      | nil => simp [charListLe] at hbc
      | cons z zs =>
        by_cases hxy : x.toNat = y.toNat <;> by_cases hyz : y.toNat = z.toNat
        · simp only [charListLe, if_pos hxy] at hab
          simp only [charListLe, if_pos hyz] at hbc
          simp only [charListLe, if_pos (hxy.trans hyz)]
          exact ih ys zs hab hbc
        · simp only [charListLe, if_pos hxy] at hab
          simp only [charListLe, if_neg hyz, decide_eq_true_iff] at hbc
          have hxz : ¬ x.toNat = z.toNat := by omega
          simp only [charListLe, if_neg hxz, decide_eq_true_iff]
          omega
        · simp only [charListLe, if_neg hxy, decide_eq_true_iff] at hab
          simp only [charListLe, if_pos hyz] at hbc
          have hxz : ¬ x.toNat = z.toNat := by omega
          simp only [charListLe, if_neg hxz, decide_eq_true_iff]
          omega
        · simp only [charListLe, if_neg hxy, decide_eq_true_iff] at hab
          simp only [charListLe, if_neg hyz, decide_eq_true_iff] at hbc
          have hxz : ¬ x.toNat = z.toNat := by omega
          simp only [charListLe, if_neg hxz, decide_eq_true_iff]
          omega

/-- A common prefix cancels in the code-unit order. -/
theorem charListLe_append_same (p : List Char) :
    ∀ a b, charListLe (p ++ a) (p ++ b) = charListLe a b := by
  induction p with
  | nil =>
    intro a b
    rfl
  | cons x xs ih =>
    intro a b
    simp only [List.cons_append, charListLe, if_pos rfl]
    exact ih a b

/-- A common prefix cancels in JS string comparison. -/
theorem strLeB_append_left (p a b : String) :
    strLeB (p ++ a) (p ++ b) = strLeB a b := by
  unfold strLeB
  rw [String.data_append, String.data_append]
  exact charListLe_append_same p.data a.data b.data

/-- On 3-zero-padded sequences below 1000, code-unit order is numeric
order. -/
theorem pad3_le_iff (a b : Nat) (ha : a ≤ 999) (hb : b ≤ 999) :
    (strLeB (padStart 3 '0' (natToString a)) (padStart 3 '0' (natToString b)) = true) ↔
      a ≤ b := by
  unfold strLeB
  rw [pad3_data a ha, pad3_data b hb]
  have da2 : a / 100 < 10 := by omega
  have da1 : a / 10 % 10 < 10 := by omega
  have da0 : a % 10 < 10 := by omega
  have db2 : b / 100 < 10 := by omega
  have db1 : b / 10 % 10 < 10 := by omega
  have db0 : b % 10 < 10 := by omega
  have hdda : a / 10 / 10 = a / 100 := by
    rw [Nat.div_div_eq_div_mul]
  have hddb : b / 10 / 10 = b / 100 := by
    rw [Nat.div_div_eq_div_mul]
  simp only [charListLe, digit_toNat _ da2, digit_toNat _ da1, digit_toNat _ da0,
    digit_toNat _ db2, digit_toNat _ db1, digit_toNat _ db0]
  split_ifs with h1 h2 h3
  · constructor
    · intro _
      omega
    · intro _
      rfl
  · simp only [decide_eq_true_iff]
    omega
  · simp only [decide_eq_true_iff]
    omega
  · simp only [decide_eq_true_iff]
    omega

/-- Zero-padding to 3 digits is injective below 1000. -/
theorem pad3_inj (a b : Nat) (ha : a ≤ 999) (hb : b ≤ 999)
    (h : padStart 3 '0' (natToString a) = padStart 3 '0' (natToString b)) : a = b := by
  have hd := congrArg String.data h
  rw [pad3_data a ha, pad3_data b hb] at hd
  injection hd with h2 hd
  injection hd with h1 hd
  injection hd with h0 hd
  have e2 := congrArg Char.toNat h2
  have e1 := congrArg Char.toNat h1
  have e0 := congrArg Char.toNat h0
  rw [digit_toNat _ (by omega), digit_toNat _ (by omega)] at e2 e1 e0
  all_goals omega

/-- The head of the descending sort is a maximum. -/
theorem jsSortDesc_head (l : List String) (m : String) (t : List String)
    (h : jsSortDesc l = m :: t) : m ∈ l ∧ ∀ x ∈ l, strLeB x m = true := by
  haveI htot : IsTotal String (fun a b => strLeB a b = true) :=
    ⟨fun a b => charListLe_total a.data b.data⟩
  haveI htr : IsTrans String (fun a b => strLeB a b = true) :=
    ⟨fun a b c => charListLe_trans a.data b.data c.data⟩
  have hperm : (jsSortAsc l).Perm l := List.perm_insertionSort _ l
  have hsorted : List.Sorted (fun a b => strLeB a b = true) (jsSortAsc l) :=
    List.sorted_insertionSort _ l
  have hrev : List.Pairwise (flip (fun a b => strLeB a b = true)) (jsSortDesc l) := by
    unfold jsSortDesc
    rw [List.pairwise_reverse]
    exact hsorted
  rw [h] at hrev
  have hmem : ∀ x, x ∈ jsSortDesc l ↔ x ∈ l := by
    intro x
    unfold jsSortDesc
    rw [List.mem_reverse]
    exact hperm.mem_iff
  constructor
  · exact (hmem m).mp (h ▸ List.mem_cons_self m t)
  · intro x hx
    have hx' : x ∈ m :: t := h ▸ (hmem x).mpr hx
    rcases List.mem_cons.mp hx' with rfl | hxt
    · exact charListLe_refl _
    · exact (List.pairwise_cons.mp hrev).1 x hxt

/-- Unfolding `splitCharList` one step. -/
theorem splitCharList_cons (c x : Char) (xs : List Char) :
    splitCharList c (x :: xs) =
      match splitCharList c xs with
      | [] => [[]]
      | h :: t => if x = c then [] :: h :: t else (x :: h) :: t := rfl

/-- `splitCharList` never returns the empty list. -/
theorem splitCharList_ne_nil (c : Char) (l : List Char) : splitCharList c l ≠ [] := by
  cases l with
  | nil => simp [splitCharList]
  | cons x xs =>
    simp only [splitCharList]
    split
    · simp
    · split <;> simp

/-- A separator-free list is one segment. -/
theorem splitCharList_not_mem (c : Char) :
    ∀ (l : List Char), c ∉ l → splitCharList c l = [l] := by
  intro l
  induction l with
  | nil =>
    intro _
    rfl
  | cons x xs ih =>
    intro h
    have hx : ¬ x = c := fun hh => h (hh ▸ List.mem_cons_self x xs)
    have hxs : c ∉ xs := fun hh => h (List.mem_cons_of_mem _ hh)
    rw [splitCharList_cons, ih hxs]
    dsimp only
    rw [if_neg hx]

/-- Splitting around the first separator. -/
theorem splitCharList_append (c : Char) :
    ∀ (l1 l2 : List Char), c ∉ l1 →
      splitCharList c (l1 ++ c :: l2) = l1 :: splitCharList c l2 := by
  intro l1
  induction l1 with
  | nil =>
    intro l2 _
    rw [List.nil_append, splitCharList_cons]
    cases hs : splitCharList c l2 with
    | nil => exact absurd hs (splitCharList_ne_nil c l2)
    | cons hh tt =>
      dsimp only
      rw [if_pos rfl]
  | cons x xs ih =>
    intro l2 h
    have hx : ¬ x = c := fun hh => h (hh ▸ List.mem_cons_self x xs)
    have hxs : c ∉ xs := fun hh => h (List.mem_cons_of_mem _ hh)
    rw [List.cons_append, splitCharList_cons, ih l2 hxs]
    dsimp only
    rw [if_neg hx]

/-- `split("-")` of a well-formed order id. -/
theorem jsSplit_orderId (dateStr seg : String)
    (hd : '-' ∉ dateStr.data) (hs : '-' ∉ seg.data) :
    jsSplit '-' ("ORDER-" ++ dateStr ++ "-" ++ seg) = ["ORDER", dateStr, seg] := by
  unfold jsSplit
  have hdata : ("ORDER-" ++ dateStr ++ "-" ++ seg).data =
      ['O', 'R', 'D', 'E', 'R'] ++ '-' :: (dateStr.data ++ '-' :: seg.data) := by
    simp [String.data_append]
  rw [hdata, splitCharList_append _ _ _ (by decide),
    splitCharList_append _ _ _ hd, splitCharList_not_mem _ _ hs]
  rfl

/-- `parseInt` inverts 3-digit zero-padding below 1000. -/
theorem parse_pad3 (n : Nat) (h : n ≤ 999) :
    parseIntJs (some (padStart 3 '0' (natToString n))) = some n := by
  have i2 : (Char.ofNat (48 + n / 100)).isDigit = true := digit_isDigit _ (by omega)
  have i1 : (Char.ofNat (48 + n / 10 % 10)).isDigit = true := digit_isDigit _ (by omega)
  have i0 : (Char.ofNat (48 + n % 10)).isDigit = true := digit_isDigit _ (by omega)
  simp only [parseIntJs]
  rw [pad3_data n h]
  simp only [List.takeWhile, i2, i1, i0]
  rw [if_neg (by simp)]
  simp only [digitsToNat, List.foldl,
    digit_toNat _ (show n / 100 < 10 by omega),
    digit_toNat _ (show n / 10 % 10 < 10 by omega),
    digit_toNat _ (show n % 10 < 10 by omega)]
  congr 1
  omega

/-- 3-digit zero-padded sequences contain no dash. -/
theorem pad3_no_dash (n : Nat) (h : n ≤ 999) :
    '-' ∉ (padStart 3 '0' (natToString n)).data := by
  rw [pad3_data n h]
  intro hmem
  have h2 := digit_toNat (n / 100) (by omega)
  have h1 := digit_toNat (n / 10 % 10) (by omega)
  have h0 := digit_toNat (n % 10) (by omega)
  have hdash : ('-').toNat = 45 := rfl
  rcases List.mem_cons.mp hmem with he | hmem
  · rw [← he, hdash] at h2
    omega
  rcases List.mem_cons.mp hmem with he | hmem
  · rw [← he, hdash] at h1
    omega
  rcases List.mem_cons.mp hmem with he | hmem
  · rw [← he, hdash] at h0
    omega
  · cases hmem

/-- A string starts with its own prefix. -/
theorem startsWithB_append (p s : String) : startsWithB (p ++ s) p = true := by
  unfold startsWithB
  rw [String.data_append]
  exact List.isPrefixOf_iff_prefix.mpr (List.prefix_append p.data s.data)

/-- Appending to the same prefix is injective. -/
theorem string_append_left_cancel (p a b : String) (h : p ++ a = p ++ b) : a = b := by
  have hd := congrArg String.data h
  rw [String.data_append, String.data_append] at hd
  have := List.append_cancel_left hd
  cases a
  cases b
  exact congrArg String.mk this

/-- Reducing `generateOrderId` when the day's descending sort is known. -/
theorem generateOrderId_ok_cons (db : List String) (dateStr : String) (ts : Nat)
    (m : String) (t : List String)
    (hsort : jsSortDesc (db.filter (fun oid =>
      startsWithB oid ("ORDER-" ++ dateStr ++ "-"))) = m :: t) :
    generateOrderId (.ok db) dateStr ts =
      (match parseIntJs ((jsSplit '-' m).get? 2) with
       | none => "ORDER-" ++ dateStr ++ "-" ++ "NaN"
       | some lastSeq =>
         "ORDER-" ++ dateStr ++ "-" ++ padStart 3 '0' (natToString (lastSeq + 1))) := by
  simp only [generateOrderId]
  rw [hsort]
  rfl

/-- C6 counterexample: with existing ids `…-999` and `…-1000`, the generator
takes the *lexicographically* greatest id (`…-999`), so it emits `…-1000`
again — an id that already exists — instead of the numeric successor
`…-1001`; generation is therefore not strictly increasing past 999. -/
theorem generateOrderId_lexmax_counterexample :
    generateOrderId (.ok ["ORDER-20250601-999", "ORDER-20250601-1000"]) "20250601" 0 =
      "ORDER-20250601-1000" ∧
    "ORDER-20250601-1000" ∈ ["ORDER-20250601-999", "ORDER-20250601-1000"] ∧
    generateOrderId (.ok ["ORDER-20250601-999", "ORDER-20250601-1000"]) "20250601" 0 ≠
      "ORDER-20250601-1001" :=
  ⟨by decide, by decide, by decide⟩

/-- C6 (amended): order id generation scans the day's ids by prefix and
increments the sequence parsed from the *lexicographically* greatest one;
as long as every sequence of the day is at most 999 (3-digit zero-padded,
where code-unit order and numeric order agree) the generated id is the
numeric successor of the day's maximum and is fresh — so ids strictly
increase below 999; a day with no matching ids starts at `001`; and a query
error falls back to the timestamp id `ORDER-<Date.now()>`. -/
theorem generateOrderId_monotonic_props :
    (∀ (db : List String) (dateStr : String) (ts : Nat),
      (∀ oid ∈ db, startsWithB oid ("ORDER-" ++ dateStr ++ "-") = false) →
      generateOrderId (.ok db) dateStr ts = "ORDER-" ++ dateStr ++ "-" ++ "001") ∧
    (generateOrderId (.ok ["ORDER-20250601-003"]) "20250601" 0 = "ORDER-20250601-004") ∧
    (∀ (e : Unit) (dateStr : String) (ts : Nat),
      generateOrderId (.error e) dateStr ts = "ORDER-" ++ natToString ts) ∧
    (∀ (db : List String) (dateStr : String) (ts n : Nat),
      '-' ∉ dateStr.data → 1 ≤ n → n ≤ 998 →
      (∀ oid ∈ db, startsWithB oid ("ORDER-" ++ dateStr ++ "-") = true →
        ∃ k, 1 ≤ k ∧ k ≤ n ∧
          oid = "ORDER-" ++ dateStr ++ "-" ++ padStart 3 '0' (natToString k)) →
      ("ORDER-" ++ dateStr ++ "-" ++ padStart 3 '0' (natToString n)) ∈ db →
      generateOrderId (.ok db) dateStr ts =
        "ORDER-" ++ dateStr ++ "-" ++ padStart 3 '0' (natToString (n + 1)) ∧
      generateOrderId (.ok db) dateStr ts ∉ db) := by
  refine ⟨?_, by decide, fun _ _ _ => rfl, ?_⟩
  · intro db dateStr ts hall
    have hfil : db.filter (fun oid => startsWithB oid ("ORDER-" ++ dateStr ++ "-")) = [] := by
      rw [List.filter_eq_nil_iff]
      intro a ha
      simp [hall a ha]
    simp only [generateOrderId, hfil]
    rfl
  · intro db dateStr ts n hdash h1 h998 hchar hmem
    have hnle : n ≤ 999 := by omega
    have hpref : startsWithB
        ("ORDER-" ++ dateStr ++ "-" ++ padStart 3 '0' (natToString n))
        ("ORDER-" ++ dateStr ++ "-") = true := startsWithB_append ..
    have hmemf : ("ORDER-" ++ dateStr ++ "-" ++ padStart 3 '0' (natToString n)) ∈
        db.filter (fun oid => startsWithB oid ("ORDER-" ++ dateStr ++ "-")) :=
      List.mem_filter.mpr ⟨hmem, hpref⟩
    obtain ⟨m, t, hsort⟩ : ∃ m t, jsSortDesc (db.filter (fun oid =>
        startsWithB oid ("ORDER-" ++ dateStr ++ "-"))) = m :: t := by
      cases hc : jsSortDesc (db.filter (fun oid =>
          startsWithB oid ("ORDER-" ++ dateStr ++ "-"))) with
      | nil =>
        exfalso
        have hlen : (jsSortDesc (db.filter (fun oid =>
            startsWithB oid ("ORDER-" ++ dateStr ++ "-")))).length =
            (db.filter (fun oid =>
              startsWithB oid ("ORDER-" ++ dateStr ++ "-"))).length := by
          unfold jsSortDesc
          rw [List.length_reverse]
          exact (List.perm_insertionSort _ _).length_eq
        rw [hc, List.length_nil] at hlen
        have hpos := List.length_pos.mpr (List.ne_nil_of_mem hmemf)
        omega
      | cons m t => exact ⟨m, t, rfl⟩
    obtain ⟨hm_mem, hmax⟩ := jsSortDesc_head _ _ _ hsort
    obtain ⟨km, hkm1, hkmn, hmEq⟩ :=
      hchar m (List.mem_filter.mp hm_mem).1 (List.mem_filter.mp hm_mem).2
    have hle := hmax _ hmemf
    rw [hmEq, strLeB_append_left] at hle
    have hnkm : n ≤ km := (pad3_le_iff n km hnle (by omega)).mp hle
    have hkmeq : km = n := by omega
    subst hkmeq
    have hgen : generateOrderId (.ok db) dateStr ts =
        "ORDER-" ++ dateStr ++ "-" ++ padStart 3 '0' (natToString (km + 1)) := by
      rw [generateOrderId_ok_cons db dateStr ts m t hsort, hmEq,
        jsSplit_orderId dateStr _ hdash (pad3_no_dash km hnle)]
      rw [show (["ORDER", dateStr, padStart 3 '0' (natToString km)].get? 2) =
          some (padStart 3 '0' (natToString km)) from rfl]
      rw [parse_pad3 km hnle]
    refine ⟨hgen, ?_⟩
    rw [hgen]
    intro hin
    obtain ⟨k, hk1, hkn, heq⟩ := hchar _ hin (startsWithB_append ..)
    have hpad := string_append_left_cancel _ _ _ heq
    have := pad3_inj (km + 1) k (by omega) (by omega) hpad
    omega

/-- C6 witness: with `ORDER-20250601-003` stored, the amended theorem's
strict-increase clause yields `ORDER-20250601-004`, which is fresh. -/
theorem generateOrderId_monotonic_props_witness :
    ('-' ∉ ("20250601" : String).data ∧
      ("ORDER-" ++ "20250601" ++ "-" ++ padStart 3 '0' (natToString 3)) ∈
        ["ORDER-20250601-003"]) ∧
    (generateOrderId (.ok ["ORDER-20250601-003"]) "20250601" 7 =
      "ORDER-" ++ "20250601" ++ "-" ++ padStart 3 '0' (natToString (3 + 1)) ∧
     generateOrderId (.ok ["ORDER-20250601-003"]) "20250601" 7 ∉
      ["ORDER-20250601-003"]) :=
  ⟨⟨by decide, by decide⟩,
   generateOrderId_monotonic_props.2.2.2 ["ORDER-20250601-003"] "20250601" 7 3
     (by decide) (by decide) (by decide)
     (fun oid hmem _ => by
        rcases List.mem_singleton.mp hmem with rfl
        exact ⟨3, by decide, by decide, by decide⟩)
     (by decide)⟩

/-- Overlap is symmetric: `isTimeOverlap` swaps its interval arguments. -/
theorem isTimeOverlap_comm (a b c d : Int) :
    isTimeOverlap a b c d = isTimeOverlap c d a b := by
  simp only [isTimeOverlap]
  by_cases h1 : a < d <;> by_cases h2 : c < b <;> simp [h1, h2]

/-- C5: `reserve` (= `markAsOccupied`) succeeds iff the pod is `AVAILABLE`,
in which case the status becomes `OCCUPIED`; from any other status it throws
an invalid-transition error and writes nothing. -/
theorem reserve_succeeds_iff_available (p : Pod) :
    (markAsOccupied p = .ok { p with status := .OCCUPIED } ↔ p.status = .AVAILABLE) ∧
    (p.status ≠ .AVAILABLE → markAsOccupied p = .error (cannotOccupyMsg p)) := by
  constructor
  · constructor
    · intro h
      by_contra hs
      simp [markAsOccupied, hs] at h
    · intro h
      simp [markAsOccupied, h]
  · intro h
    simp [markAsOccupied, cannotOccupyMsg, h]

/-- C5 witness: concrete instances of both directions. -/
theorem reserve_succeeds_iff_available_witness :
    ((markAsOccupied ⟨"p1", "c1", "A01L", "Pod A01L", .AVAILABLE⟩ =
        .ok { (⟨"p1", "c1", "A01L", "Pod A01L", .AVAILABLE⟩ : Pod) with status := .OCCUPIED } ↔
      (⟨"p1", "c1", "A01L", "Pod A01L", .AVAILABLE⟩ : Pod).status = .AVAILABLE) ∧
     ((⟨"p1", "c1", "A01L", "Pod A01L", .AVAILABLE⟩ : Pod).status ≠ .AVAILABLE →
       markAsOccupied ⟨"p1", "c1", "A01L", "Pod A01L", .AVAILABLE⟩ =
         .error (cannotOccupyMsg ⟨"p1", "c1", "A01L", "Pod A01L", .AVAILABLE⟩))) ∧
    ((markAsOccupied ⟨"p2", "c1", "A01U", "Pod A01U", .CLEANING⟩ =
        .ok { (⟨"p2", "c1", "A01U", "Pod A01U", .CLEANING⟩ : Pod) with status := .OCCUPIED } ↔
      (⟨"p2", "c1", "A01U", "Pod A01U", .CLEANING⟩ : Pod).status = .AVAILABLE) ∧
     ((⟨"p2", "c1", "A01U", "Pod A01U", .CLEANING⟩ : Pod).status ≠ .AVAILABLE →
       markAsOccupied ⟨"p2", "c1", "A01U", "Pod A01U", .CLEANING⟩ =
         .error (cannotOccupyMsg ⟨"p2", "c1", "A01U", "Pod A01U", .CLEANING⟩))) :=
  ⟨reserve_succeeds_iff_available _, reserve_succeeds_iff_available _⟩

/-- C10: `markAsAvailable` throws (and changes nothing) exactly when the pod
is in a dirty state (`NEEDS_CLEANING` or `CLEANING`); from every other status,
including `MAINTENANCE` and `OCCUPIED`, it sets the status to `AVAILABLE`. -/
theorem markAsAvailable_gated_on_cleaning (p : Pod) :
    ((p.status = .NEEDS_CLEANING ∨ p.status = .CLEANING) →
      markAsAvailable p = .error "Pod must be cleaned before becoming available") ∧
    (¬(p.status = .NEEDS_CLEANING ∨ p.status = .CLEANING) →
      markAsAvailable p = .ok { p with status := .AVAILABLE }) := by
  constructor
  · intro h
    simp [markAsAvailable, h]
  · intro h
    simp [markAsAvailable, h]

/-- C2 counterexample: the claimed "fails with a time-slot-conflict error if
and only if some existing `BOOKED`/`IN_USE` booking overlaps" is false as an
unconditional iff: with the pod `OCCUPIED` and an overlapping `IN_USE` booking
present, `createBooking` fails with "Pod is not available", not with the
conflict error. -/
theorem createBooking_conflict_iff_counterexample :
    ((⟨"aaaaaaaaaaaaaaaaaaaaaaaa", "bbbbbbbbbbbbbbbbbbbbbbbb", 0, 10, .IN_USE⟩ : Booking).pod =
        "bbbbbbbbbbbbbbbbbbbbbbbb" ∧
      isActiveBooking ⟨"aaaaaaaaaaaaaaaaaaaaaaaa", "bbbbbbbbbbbbbbbbbbbbbbbb", 0, 10, .IN_USE⟩ = true ∧
      isTimeOverlap 5 15 0 10 = true) ∧
    createBooking [⟨"bbbbbbbbbbbbbbbbbbbbbbbb", "c1", "A01L", "Pod A01L", .OCCUPIED⟩]
        [⟨"aaaaaaaaaaaaaaaaaaaaaaaa", "bbbbbbbbbbbbbbbbbbbbbbbb", 0, 10, .IN_USE⟩]
        "aaaaaaaaaaaaaaaaaaaaaaaa" "bbbbbbbbbbbbbbbbbbbbbbbb" 5 15 =
      .error "Pod is not available" := by
  constructor
  · exact ⟨rfl, by decide, by decide⟩
  · rfl

/-- C2 (amended): provided the ids are valid and the pod exists with status
`AVAILABLE`, `createBooking` fails with the time-slot-conflict error iff some
existing `BOOKED`/`IN_USE` booking of the pod overlaps under the open-interval
test (so touching endpoints do not conflict), and a successful creation
preserves the per-pod non-overlap invariant of the booking store. -/
theorem createBooking_conflict_iff_and_invariant
    (pods : List Pod) (bookings : List Booking) (uid pid : String) (s e : Int) (pod : Pod)
    (hu : isValidObjectId uid = true) (hp : isValidObjectId pid = true)
    (hfind : pods.find? (fun p => p.id == pid) = some pod)
    (hav : pod.status = .AVAILABLE) :
    (createBooking pods bookings uid pid s e = .error "Time slot is not available" ↔
      ∃ b ∈ bookings, b.pod = pid ∧ isActiveBooking b = true ∧
        isTimeOverlap s e b.startTime b.endTime = true) ∧
    (∀ pods' bookings' bk,
        createBooking pods bookings uid pid s e = .ok (pods', bookings', bk) →
        activeNoOverlap bookings → activeNoOverlap bookings') := by
  have hred : createBooking pods bookings uid pid s e =
      (if (bookings.filter (fun b => b.pod == pid && isActiveBooking b)).any
            (fun b => isTimeOverlap s e b.startTime b.endTime) then
         .error "Time slot is not available"
       else
         .ok (pods.map (fun p => if p.id == pid then { p with status := .OCCUPIED } else p),
              bookings ++ [{ user := uid, pod := pid, startTime := s, endTime := e,
                             status := .BOOKED }],
              { user := uid, pod := pid, startTime := s, endTime := e,
                status := .BOOKED })) := by
    simp [createBooking, hu, hp, hfind, hav]
  have hiff : (bookings.filter (fun b => b.pod == pid && isActiveBooking b)).any
        (fun b => isTimeOverlap s e b.startTime b.endTime) = true ↔
      ∃ b ∈ bookings, b.pod = pid ∧ isActiveBooking b = true ∧
        isTimeOverlap s e b.startTime b.endTime = true := by
    rw [List.any_eq_true]
    constructor
    · intro ⟨b, hbmem, hbolap⟩
      obtain ⟨hbin, hbpred⟩ := List.mem_filter.mp hbmem
      rw [Bool.and_eq_true] at hbpred
      exact ⟨b, hbin, beq_iff_eq.mp hbpred.1, hbpred.2, hbolap⟩
    · intro ⟨b, hbin, hbpod, hbact, hbolap⟩
      refine ⟨b, List.mem_filter.mpr ⟨hbin, ?_⟩, hbolap⟩
      rw [Bool.and_eq_true]
      exact ⟨beq_iff_eq.mpr hbpod, hbact⟩
  by_cases hA : (bookings.filter (fun b => b.pod == pid && isActiveBooking b)).any
      (fun b => isTimeOverlap s e b.startTime b.endTime) = true
  · have hpos : createBooking pods bookings uid pid s e =
        .error "Time slot is not available" := by
      rw [hred]
      exact if_pos hA
    constructor
    · exact iff_of_true hpos (hiff.mp hA)
    · intro pods' bookings' bk hok
      rw [hpos] at hok
      cases hok
  · have hneg : createBooking pods bookings uid pid s e =
        .ok (pods.map (fun p => if p.id == pid then { p with status := .OCCUPIED } else p),
             bookings ++ [{ user := uid, pod := pid, startTime := s, endTime := e,
                            status := .BOOKED }],
             { user := uid, pod := pid, startTime := s, endTime := e,
               status := .BOOKED }) := by
      rw [hred]
      exact if_neg hA
    constructor
    · refine iff_of_false ?_ ?_
      · rw [hneg]
        intro h
        cases h
      · intro hex
        exact hA (hiff.mpr hex)
    · intro pods' bookings' bk hok hinv
      rw [hneg] at hok
      injection hok with hok
      simp only [Prod.mk.injEq] at hok
      obtain ⟨-, hbks, -⟩ := hok
      subst hbks
      unfold activeNoOverlap at hinv ⊢
      rw [List.pairwise_append]
      refine ⟨hinv, List.pairwise_singleton _ _, ?_⟩
      intro y hy bkk hbkk
      simp only [List.mem_singleton] at hbkk
      subst hbkk
      intro hpod hacty _
      have hyf : y ∈ bookings.filter (fun b => b.pod == pid && isActiveBooking b) :=
        List.mem_filter.mpr ⟨hy, by
          rw [Bool.and_eq_true]
          exact ⟨beq_iff_eq.mpr hpod, hacty⟩⟩
      have hno : isTimeOverlap s e y.startTime y.endTime = false := by
        by_contra hcon
        rw [Bool.not_eq_false] at hcon
        exact hA (List.any_eq_true.mpr ⟨y, hyf, hcon⟩)
      rw [isTimeOverlap_comm]
      exact hno

/-- C2 witness: on an `AVAILABLE` pod with one `BOOKED` booking on `[0, 10)`,
the amended theorem applies; in particular a request touching the endpoint
(`[10, 20)`) is not a conflict. -/
theorem createBooking_conflict_iff_and_invariant_witness :
    isValidObjectId "aaaaaaaaaaaaaaaaaaaaaaaa" = true ∧
    ((createBooking [⟨"bbbbbbbbbbbbbbbbbbbbbbbb", "c1", "A01L", "Pod A01L", .AVAILABLE⟩]
          [⟨"aaaaaaaaaaaaaaaaaaaaaaaa", "bbbbbbbbbbbbbbbbbbbbbbbb", 0, 10, .BOOKED⟩]
          "aaaaaaaaaaaaaaaaaaaaaaaa" "bbbbbbbbbbbbbbbbbbbbbbbb" 10 20 =
        .error "Time slot is not available" ↔
      ∃ b ∈ [(⟨"aaaaaaaaaaaaaaaaaaaaaaaa", "bbbbbbbbbbbbbbbbbbbbbbbb", 0, 10, .BOOKED⟩ : Booking)],
        b.pod = "bbbbbbbbbbbbbbbbbbbbbbbb" ∧ isActiveBooking b = true ∧
        isTimeOverlap 10 20 b.startTime b.endTime = true) ∧
    (∀ pods' bookings' bk,
        createBooking [⟨"bbbbbbbbbbbbbbbbbbbbbbbb", "c1", "A01L", "Pod A01L", .AVAILABLE⟩]
          [⟨"aaaaaaaaaaaaaaaaaaaaaaaa", "bbbbbbbbbbbbbbbbbbbbbbbb", 0, 10, .BOOKED⟩]
          "aaaaaaaaaaaaaaaaaaaaaaaa" "bbbbbbbbbbbbbbbbbbbbbbbb" 10 20 =
          .ok (pods', bookings', bk) →
        activeNoOverlap [⟨"aaaaaaaaaaaaaaaaaaaaaaaa", "bbbbbbbbbbbbbbbbbbbbbbbb", 0, 10, .BOOKED⟩] →
        activeNoOverlap bookings')) :=
  ⟨by decide,
   createBooking_conflict_iff_and_invariant _ _ _ _ _ _ _ (by decide) (by decide) rfl rfl⟩

/-- C8 counterexample: a `CRITICAL`-severity incident report against an
`AVAILABLE` pod does not force the pod out of service — `createIncident`
only does so for severity `HIGH`, so the pod stays `AVAILABLE`. -/
theorem createIncident_critical_counterexample :
    createIncident [⟨"cccccccccccccccccccccccc", "c1", "A01L", "Pod A01L", .AVAILABLE⟩] []
        "cccccccccccccccccccccccc" "dddddddddddddddddddddddd" "broken lock" .CRITICAL =
      .ok ([⟨"cccccccccccccccccccccccc", "c1", "A01L", "Pod A01L", .AVAILABLE⟩],
        [⟨"cccccccccccccccccccccccc", "dddddddddddddddddddddddd", "broken lock",
          .CRITICAL, .PENDING⟩],
        ⟨"cccccccccccccccccccccccc", "dddddddddddddddddddddddd", "broken lock",
          .CRITICAL, .PENDING⟩) := by
  rfl

/-- C8 (amended): reporting an incident against an existing pod creates it
with status `PENDING`; the pod is forced `OUT_OF_SERVICE` exactly when the
severity is `HIGH` — for every other severity, `CRITICAL` included, the pod
records are untouched. -/
theorem createIncident_forces_oos_only_on_high
    (pods : List Pod) (incidents : List Incident)
    (pid rid desc : String) (sev : IncidentSeverity) (pod : Pod)
    (hpv : isValidObjectId pid = true) (hrv : isValidObjectId rid = true)
    (hfind : pods.find? (fun p => p.id == pid) = some pod) :
    ∃ pods' inc, createIncident pods incidents pid rid desc sev =
        .ok (pods', incidents ++ [inc], inc) ∧
      inc.status = .PENDING ∧ inc.severity = sev ∧ inc.pod = pid ∧
      (sev = .HIGH → ∀ p ∈ pods', p.id = pid → p.status = .OUT_OF_SERVICE) ∧
      (sev ≠ .HIGH → pods' = pods) := by
  refine ⟨(if sev = .HIGH then
      pods.map (fun p => if p.id == pid then { p with status := .OUT_OF_SERVICE } else p)
    else pods),
    { pod := pid, reportedBy := rid, description := desc, severity := sev,
      status := .PENDING }, ?_, rfl, rfl, rfl, ?_, ?_⟩
  · simp [createIncident, hpv, hrv, hfind]
  · intro hsev p hp hpid
    rw [if_pos hsev] at hp
    rw [List.mem_map] at hp
    obtain ⟨q, -, hq⟩ := hp
    by_cases hid : q.id == pid
    · rw [if_pos hid] at hq
      rw [← hq]
    · rw [if_neg hid] at hq
      subst hq
      exact absurd (beq_iff_eq.mpr hpid) hid
  · intro hsev
    exact if_neg hsev

/-- C8 witness: a `HIGH`-severity report against an `AVAILABLE` pod leaves the
pod `OUT_OF_SERVICE` and the incident `PENDING`. -/
theorem createIncident_forces_oos_only_on_high_witness :
    ∃ pods' inc,
      createIncident [⟨"cccccccccccccccccccccccc", "c1", "A01L", "Pod A01L", .AVAILABLE⟩] []
          "cccccccccccccccccccccccc" "dddddddddddddddddddddddd" "broken lock" .HIGH =
        .ok (pods', [] ++ [inc], inc) ∧
      inc.status = .PENDING ∧ inc.severity = .HIGH ∧ inc.pod = "cccccccccccccccccccccccc" ∧
      (IncidentSeverity.HIGH = .HIGH →
        ∀ p ∈ pods', p.id = "cccccccccccccccccccccccc" → p.status = .OUT_OF_SERVICE) ∧
      (IncidentSeverity.HIGH ≠ .HIGH →
        pods' = [⟨"cccccccccccccccccccccccc", "c1", "A01L", "Pod A01L", .AVAILABLE⟩]) :=
  createIncident_forces_oos_only_on_high _ _ _ _ _ _ _ (by decide) (by decide) rfl

/-- C10 witness: a `MAINTENANCE` pod becomes `AVAILABLE` (no cleaning gate),
while a `NEEDS_CLEANING` pod is rejected. -/
theorem markAsAvailable_gated_on_cleaning_witness :
    (¬((⟨"p3", "c1", "B01L", "Pod B01L", .MAINTENANCE⟩ : Pod).status = .NEEDS_CLEANING ∨
       (⟨"p3", "c1", "B01L", "Pod B01L", .MAINTENANCE⟩ : Pod).status = .CLEANING) ∧
     markAsAvailable ⟨"p3", "c1", "B01L", "Pod B01L", .MAINTENANCE⟩ =
       .ok { (⟨"p3", "c1", "B01L", "Pod B01L", .MAINTENANCE⟩ : Pod) with status := .AVAILABLE }) ∧
    (((⟨"p4", "c1", "B01U", "Pod B01U", .NEEDS_CLEANING⟩ : Pod).status = .NEEDS_CLEANING ∨
      (⟨"p4", "c1", "B01U", "Pod B01U", .NEEDS_CLEANING⟩ : Pod).status = .CLEANING) ∧
     markAsAvailable ⟨"p4", "c1", "B01U", "Pod B01U", .NEEDS_CLEANING⟩ =
       .error "Pod must be cleaned before becoming available") :=
  ⟨⟨by decide, (markAsAvailable_gated_on_cleaning _).2 (by decide)⟩,
   ⟨by decide, (markAsAvailable_gated_on_cleaning _).1 (by decide)⟩⟩

end OasisGo
